import Mathlib

/-
Verification development for the GeoFence container-shipping simulator.

Shallow embedding of the simulator core (simulator/simulator.py,
simulator/models/container.py, simulator/core/event_generator.py,
simulator/core/route_generator.py, simulator/core/geofence_checker.py,
simulator/data/chokepoints.py, simulator/data/water_regions.py).

Modelling conventions:
- coordinates and other float quantities are modelled as rationals (ℚ);
- simulated datetimes are modelled as integer seconds (ℤ);
- the MongoDB geospatial queries (check_point, get_geofence_by_name) are
  oracles: arbitrary functions supplied as parameters;
- Python's random module is modelled by an explicit stream of draws: an
  `Rng` value carries a stream of naturals (for randint, taken modulo the
  range size) and a stream of booleans (for `random.random() < p` tests);
- the trigonometric great-circle sampling (_great_circle_points) is float
  arithmetic and is modelled as an oracle parameter; the random Gaussian
  perturbation offsets of _add_route_variation are likewise supplied by an
  oracle giving the resulting (lon, lat) offset of each interior point.
-/

namespace GeoFenceSim

/-- Geofence feature: `properties.name`, optional `properties.UNLOCode`,
and the outer ring of its polygon geometry (lon, lat pairs). -/
structure Geofence where
  name : String
  unloCode : Option String
  ring : List (ℚ × ℚ)
deriving DecidableEq

/-- Arithmetic-mean centroid (lon, lat) of the polygon's outer ring;
`(0, 0)` for an empty ring (geofence_checker.py, get_centroid). -/
def getCentroid (g : Geofence) : ℚ × ℚ :=
  match g.ring with
  | [] => (0, 0)
  | ring => ((ring.map Prod.fst).sum / ring.length, (ring.map Prod.snd).sum / ring.length)

/-! ## water_regions.py -/

/-- Bounding box (min_lon, min_lat, max_lon, max_lat). -/
structure Box where
  minLon : ℚ
  minLat : ℚ
  maxLon : ℚ
  maxLat : ℚ
deriving DecidableEq

structure WaterRegion where
  box : Box
  wraps : Bool
deriving DecidableEq

/-- WATER_REGIONS, in source (dict-insertion) order. -/
def waterRegions : List WaterRegion :=
  [ ⟨⟨-80, 0, 0, 65⟩, false⟩        -- north_atlantic
  , ⟨⟨-70, -60, 20, 0⟩, false⟩      -- south_atlantic
  , ⟨⟨100, 0, -100, 65⟩, true⟩      -- north_pacific (wraps dateline)
  , ⟨⟨140, -60, -70, 0⟩, true⟩      -- south_pacific (wraps dateline)
  , ⟨⟨20, -60, 120, 30⟩, false⟩     -- indian_ocean
  , ⟨⟨-6, 30, 42, 47⟩, false⟩       -- mediterranean
  , ⟨⟨32, 12, 44, 30⟩, false⟩       -- red_sea
  , ⟨⟨45, 5, 78, 26⟩, false⟩        -- arabian_sea
  , ⟨⟨78, 5, 100, 23⟩, false⟩       -- bay_of_bengal
  , ⟨⟨100, 0, 122, 25⟩, false⟩      -- south_china_sea
  , ⟨⟨117, 23, 132, 35⟩, false⟩     -- east_china_sea
  , ⟨⟨127, 33, 142, 52⟩, false⟩     -- sea_of_japan
  , ⟨⟨-90, 8, -60, 28⟩, false⟩      -- caribbean
  , ⟨⟨-98, 18, -80, 31⟩, false⟩     -- gulf_of_mexico
  , ⟨⟨-5, 50, 10, 62⟩, false⟩       -- north_sea
  , ⟨⟨9, 53, 30, 66⟩, false⟩        -- baltic_sea
  , ⟨⟨47, 23, 57, 31⟩, false⟩       -- persian_gulf
  , ⟨⟨43, 10, 52, 16⟩, false⟩       -- gulf_of_aden
  , ⟨⟨95, -1, 105, 8⟩, false⟩       -- malacca_strait
  , ⟨⟨-6, 48, 2, 52⟩, false⟩        -- english_channel
  , ⟨⟨31, 29, 35, 32⟩, false⟩       -- suez_canal_region
  , ⟨⟨-82, 7, -77, 11⟩, false⟩ ]    -- panama_canal_region

/-- LAND_MASSES, flattened in source order (each continent's box list). -/
def landBoxes : List Box :=
  [ ⟨-170, 25, -52, 85⟩             -- north_america
  , ⟨-82, -56, -34, 12⟩             -- south_america
  , ⟨-10, 36, 40, 72⟩               -- europe
  , ⟨-18, -35, 52, 37⟩              -- africa
  , ⟨25, 1, 180, 78⟩                -- asia (main block)
  , ⟨-180, 50, -170, 72⟩            -- asia (far-east Russia)
  , ⟨113, -45, 154, -10⟩            -- australia
  , ⟨68, 6, 98, 38⟩ ]               -- india

/-- Longitude normalisation to [-180, 180]: closed form of the source's
two subtract/add-360 while loops (which first bring a lon > 180 into
(-180, 180] and a lon < -180 into [-180, 180)). -/
def normalizeLon (lon : ℚ) : ℚ :=
  if 180 < lon then lon - 360 * (⌈(lon - 180) / 360⌉ : ℤ)
  else if lon < -180 then lon + 360 * (⌈(-180 - lon) / 360⌉ : ℤ)
  else lon

/-- is_point_clearly_on_land: inside some land box shrunk by the 2° coastal
tolerance, and not inside any water-region box (checked without the
dateline-wrap special case, exactly as the source's inner loop does). -/
def isPointClearlyOnLand (lon lat : ℚ) : Bool :=
  let lonN := normalizeLon lon
  landBoxes.any (fun b =>
    decide (b.minLon + 2 ≤ lonN) && decide (lonN ≤ b.maxLon - 2) &&
    decide (b.minLat + 2 ≤ lat) && decide (lat ≤ b.maxLat - 2) &&
    !(waterRegions.any (fun wr =>
        decide (wr.box.minLon ≤ lonN) && decide (lonN ≤ wr.box.maxLon) &&
        decide (wr.box.minLat ≤ lat) && decide (lat ≤ wr.box.maxLat))))

def boxCenter (b : Box) : ℚ × ℚ := ((b.minLon + b.maxLon) / 2, (b.minLat + b.maxLat) / 2)

/-- Squared euclidean distance. The source compares `sqrt`-distances with
a strict `<`; since `sqrt` is strictly monotone, comparing the squares
selects the same region. -/
def sqDist (p q : ℚ × ℚ) : ℚ := (p.1 - q.1) ^ 2 + (p.2 - q.2) ^ 2

/-- get_nearest_water_point: pick the water region whose box center is
nearest (first minimum in source order), then clamp the point into its box. -/
def getNearestWaterPoint (lon lat : ℚ) : ℚ × ℚ :=
  let best := waterRegions.foldl (fun acc wr =>
    match acc with
    | none => some wr
    | some b =>
      if sqDist (lon, lat) (boxCenter wr.box) < sqDist (lon, lat) (boxCenter b.box)
      then some wr else some b) none
  match best with
  | some wr =>
    (max wr.box.minLon (min wr.box.maxLon lon), max wr.box.minLat (min wr.box.maxLat lat))
  | none => (lon, lat)

/-! ## chokepoints.py -/

structure Chokepoint where
  cpName : String
  waypoints : List (ℚ × ℚ)
  connects : List (String × String)

/-- CHOKEPOINTS, keyed lookup. -/
def chokepointFor : String → Option Chokepoint
  | "suez" => some ⟨"Suez Canal",
      [(32.37, 31.23), (32.55, 30.00), (32.53, 29.93)],
      [("EU", "ASIA"), ("MENA", "ASIA"), ("US_EAST", "ASIA"), ("MED", "ASIA")]⟩
  | "panama" => some ⟨"Panama Canal",
      [(-79.92, 9.38), (-79.55, 8.95)],
      [("US_EAST", "US_WEST"), ("US_EAST", "ASIA_PACIFIC"), ("EU", "US_WEST")]⟩
  | "malacca" => some ⟨"Strait of Malacca",
      [(100.0, 5.0), (103.5, 1.2)],
      [("INDIA", "CHINA"), ("INDIA", "ASIA"), ("MENA", "ASIA"), ("EU", "ASIA")]⟩
  | "gibraltar" => some ⟨"Strait of Gibraltar",
      [(-5.6, 35.95), (-5.95, 35.9)],
      [("MED", "ATLANTIC"), ("MED", "US_EAST"), ("MED", "US_WEST"), ("EU", "MED")]⟩
  | "cape_good_hope" => some ⟨"Cape of Good Hope",
      [(18.47, -34.36), (20.0, -35.0), (25.0, -34.0)],
      [("ATLANTIC", "INDIAN"), ("EU", "ASIA"), ("US_EAST", "ASIA")]⟩
  | "english_channel" => some ⟨"English Channel",
      [(-1.5, 50.0), (1.5, 51.0)],
      [("EU", "ATLANTIC"), ("EU", "US_EAST")]⟩
  | "bab_el_mandeb" => some ⟨"Bab el-Mandeb Strait",
      [(43.3, 12.6), (43.5, 12.4)],
      [("MED", "INDIAN"), ("MENA", "INDIA"), ("EU", "INDIA")]⟩
  | "singapore" => some ⟨"Singapore Strait",
      [(103.8, 1.25), (104.1, 1.2)],
      [("ASIA", "INDIA"), ("ASIA", "MENA"), ("CHINA", "INDIA")]⟩
  | "taiwan" => some ⟨"Taiwan Strait",
      [(119.5, 24.0), (120.0, 25.0)],
      [("CHINA", "JAPAN"), ("CHINA", "KOREA")]⟩
  | "hormuz" => some ⟨"Strait of Hormuz",
      [(56.4, 26.5), (56.0, 26.0)],
      [("MENA", "INDIA"), ("MENA", "ASIA")]⟩
  | _ => none

/-- One REGION_PREFIXES entry: region name, country codes, optional
longitude filter (only the US split carries one). -/
structure RegionDef where
  region : String
  countries : List String
  lonFilter : Option (ℚ → Bool)

/-- REGION_PREFIXES in source (dict-insertion) order. -/
def regionTable : List RegionDef :=
  [ ⟨"US_EAST", ["US"], some (fun lon => decide (-100 < lon))⟩
  , ⟨"US_WEST", ["US"], some (fun lon => decide (lon ≤ -100))⟩
  , ⟨"CANADA", ["CA"], none⟩
  , ⟨"EU", ["GB", "DE", "NL", "BE", "FR", "ES", "IT", "PT", "PL", "SE", "NO", "DK", "FI", "IE"], none⟩
  , ⟨"MED", ["ES", "IT", "GR", "TR", "HR", "SI", "MT", "CY"], none⟩
  , ⟨"CHINA", ["CN", "HK"], none⟩
  , ⟨"JAPAN", ["JP"], none⟩
  , ⟨"KOREA", ["KR"], none⟩
  , ⟨"ASIA", ["CN", "JP", "KR", "TW", "HK", "SG", "MY", "TH", "VN", "ID", "PH"], none⟩
  , ⟨"INDIA", ["IN", "BD", "LK", "PK"], none⟩
  , ⟨"MENA", ["AE", "SA", "EG", "IL", "TR", "JO", "OM", "QA", "KW", "BH"], none⟩
  , ⟨"OCEANIA", ["AU", "NZ"], none⟩
  , ⟨"ATLANTIC", ["BR", "AR", "CL", "CO", "VE", "PE", "EC"], none⟩
  , ⟨"AFRICA", ["ZA", "KE", "NG", "GH", "TZ", "MA", "DZ", "TN"], none⟩ ]

/-- COUNTRY_TO_REGIONS: regions listing the country, in table order. -/
def countryToRegions (cc : String) : List String :=
  (regionTable.filter (fun rd => rd.countries.contains cc)).map (fun rd => rd.region)

def lonFilterFor (reg : String) : Option (ℚ → Bool) :=
  match regionTable.find? (fun rd => rd.region == reg) with
  | some rd => rd.lonFilter
  | none => none

/-- `name[:2] if len(name) >= 2 else ""` — the country-code convention. -/
def countryCode (name : String) : String := if 2 ≤ name.length then name.take 2 else ""

/-- get_terminal_region (chokepoints.py). The centroid is always a
(truthy) pair at the call sites, so the `if centroid` guard is folded in. -/
def getTerminalRegion (g : Geofence) (centroid : ℚ × ℚ) : String :=
  let cc := countryCode g.name
  let regions := countryToRegions cc
  if regions.isEmpty then "UNKNOWN"
  else if regions.length = 1 then regions.headD "UNKNOWN"
  else if cc == "US" then
    match regions.find? (fun reg =>
        match lonFilterFor reg with
        | some f => f centroid.1
        | none => false) with
    | some reg => reg
    | none => regions.headD "UNKNOWN"
  else regions.headD "UNKNOWN"

/-- ROUTE_CHOKEPOINTS association table, in source order. -/
def routeChokepointTable : List ((String × String) × List String) :=
  [ (("ASIA", "EU"), ["malacca", "singapore", "bab_el_mandeb", "suez", "gibraltar"])
  , (("CHINA", "EU"), ["taiwan", "malacca", "singapore", "bab_el_mandeb", "suez", "gibraltar"])
  , (("JAPAN", "EU"), ["malacca", "singapore", "bab_el_mandeb", "suez", "gibraltar"])
  , (("KOREA", "EU"), ["malacca", "singapore", "bab_el_mandeb", "suez", "gibraltar"])
  , (("ASIA", "US_EAST"), ["malacca", "singapore", "bab_el_mandeb", "suez", "gibraltar"])
  , (("CHINA", "US_EAST"), ["taiwan", "malacca", "singapore", "bab_el_mandeb", "suez", "gibraltar"])
  , (("ASIA", "US_WEST"), [])
  , (("CHINA", "US_WEST"), [])
  , (("JAPAN", "US_WEST"), [])
  , (("KOREA", "US_WEST"), [])
  , (("EU", "US_EAST"), ["english_channel"])
  , (("EU", "US_WEST"), ["english_channel", "panama"])
  , (("MED", "US_EAST"), ["gibraltar"])
  , (("MED", "US_WEST"), ["gibraltar", "panama"])
  , (("US_EAST", "US_WEST"), ["panama"])
  , (("MENA", "ASIA"), ["hormuz", "singapore", "malacca"])
  , (("MENA", "EU"), ["suez", "gibraltar"])
  , (("MENA", "US_EAST"), ["suez", "gibraltar"])
  , (("INDIA", "EU"), ["bab_el_mandeb", "suez", "gibraltar"])
  , (("INDIA", "US_EAST"), ["bab_el_mandeb", "suez", "gibraltar"])
  , (("INDIA", "ASIA"), ["singapore", "malacca"])
  , (("INDIA", "CHINA"), ["singapore", "malacca"])
  , (("OCEANIA", "ASIA"), ["singapore"])
  , (("OCEANIA", "EU"), ["singapore", "malacca", "bab_el_mandeb", "suez", "gibraltar"])
  , (("OCEANIA", "US_WEST"), [])
  , (("AFRICA", "EU"), ["cape_good_hope", "gibraltar"])
  , (("AFRICA", "ASIA"), ["cape_good_hope", "singapore"])
  , (("AFRICA", "US_EAST"), ["cape_good_hope"]) ]

/-- get_route_chokepoints: direct lookup, else reversed lookup with the
chokepoint list reversed, else empty (direct route). -/
def getRouteChokepoints (o d : String) : List String :=
  match routeChokepointTable.find? (fun e => decide (e.1 = (o, d))) with
  | some e => e.2
  | none =>
    match routeChokepointTable.find? (fun e => decide (e.1 = (d, o))) with
    | some e => e.2.reverse
    | none => []

/-! ## route_generator.py : the two list-shape passes and the chokepoint route -/

/-- Adjustment of a single waypoint in the water-validation pass. -/
def adjustWaypoint (p : ℚ × ℚ) : ℚ × ℚ :=
  if isPointClearlyOnLand p.1 p.2 then getNearestWaterPoint p.1 p.2 else p

/-- Interior map of _validate_ocean_route: adjust every element except the
last one (the first element is peeled off by `validateOceanRoute`). -/
def adjustMid : List (ℚ × ℚ) → List (ℚ × ℚ)
  | [] => []
  | [x] => [x]
  | x :: y :: xs => adjustWaypoint x :: adjustMid (y :: xs)

/-- _validate_ocean_route: keep the first and last waypoints, adjust every
interior waypoint that is clearly on land. (For lists of length ≤ 2 this
is the identity, exactly as the source's early return.) -/
def validateOceanRoute (l : List (ℚ × ℚ)) : List (ℚ × ℚ) :=
  match l with
  | [] => []
  | a :: rest => a :: adjustMid rest

/-- Interior map of _add_route_variation, with the running index `i` of the
source loop. `f i p` is the random (lon, lat) offset the Gaussian
deviation/angle draw produces for the interior point `p` at index `i`. -/
def varyMid (f : ℕ → ℚ × ℚ → ℚ × ℚ) : ℕ → List (ℚ × ℚ) → List (ℚ × ℚ)
  | _, [] => []
  | _, [x] => [x]
  | i, x :: y :: xs => (x.1 + (f i x).1, x.2 + (f i x).2) :: varyMid f (i + 1) (y :: xs)

/-- _add_route_variation: keep the first and last waypoints, offset every
interior waypoint by its random deviation (identity on length ≤ 2). -/
def addRouteVariation (f : ℕ → ℚ × ℚ → ℚ × ℚ) (l : List (ℚ × ℚ)) : List (ℚ × ℚ) :=
  match l with
  | [] => []
  | a :: rest => a :: varyMid f 1 rest

/-- Oracle for _great_circle_points: the float spherical interpolation,
mapping (origin, destination, num_points) to the sampled list. -/
def GCOracle : Type := ℚ × ℚ → ℚ × ℚ → ℕ → List (ℚ × ℚ)

/-- Loop body of _build_chokepoint_route: returns the accumulated waypoints
(each segment with its last point dropped, then the chokepoint's
waypoints) and the current point after the loop. -/
def buildLoop (gc : GCOracle) (wps : ℕ) : ℚ × ℚ → List String → List (ℚ × ℚ) × (ℚ × ℚ)
  | current, [] => ([], current)
  | current, k :: ks =>
    match chokepointFor k with
    | none => buildLoop gc wps current ks
    | some cp =>
      if cp.waypoints.isEmpty then buildLoop gc wps current ks
      else
        let seg := gc current (cp.waypoints.headD (0, 0)) wps
        let rest := buildLoop gc wps (cp.waypoints.getLastD (0, 0)) ks
        (seg.dropLast ++ cp.waypoints ++ rest.1, rest.2)

/-- _build_chokepoint_route. -/
def buildChokepointRoute (gc : GCOracle) (origin dest : ℚ × ℚ)
    (keys : List String) (wps : ℕ) : List (ℚ × ℚ) :=
  if keys.isEmpty then gc origin dest (wps * 2)
  else
    let lp := buildLoop gc wps origin keys
    lp.1 ++ gc lp.2 dest wps

/-- generate_ocean_route up to (and excluding) the final
_add_route_variation pass: the chokepoint route between the two terminal
centroids, water-validated. -/
def oceanRoutePreVariation (gc : GCOracle) (origin dest : Geofence) : List (ℚ × ℚ) :=
  let oc := getCentroid origin
  let dc := getCentroid dest
  validateOceanRoute (buildChokepointRoute gc oc dc
    (getRouteChokepoints (getTerminalRegion origin oc) (getTerminalRegion dest dc)) 20)

/-! ## Random source (python `random`) -/

/-- Explicit random source: a stream of natural draws for `randint` and a
stream of booleans for probability tests, with a position counter. -/
structure Rng where
  nats : ℕ → ℕ
  bits : ℕ → Bool
  pos : ℕ

def Rng.bump (r : Rng) : Rng := { r with pos := r.pos + 1 }

/-- random.randint(lo, hi) (both ends inclusive): the next natural draw
reduced into the range. -/
def Rng.randInt (r : Rng) (lo hi : ℤ) : ℤ × Rng :=
  (lo + (r.nats r.pos : ℤ) % (hi - lo + 1), r.bump)

/-- A `random.random() < p` test: the next boolean draw. -/
def Rng.bern (r : Rng) : Bool × Rng := (r.bits r.pos, r.bump)

/-! ## config.py -/

def EVENT_INTERVAL_SECONDS : ℤ := 900

inductive ContainerState
  | atOriginDepot | inTransitToRailRamp | atOriginRailRamp | inTransitRail
  | inTransitToTerminal | atOriginTerminal | loadedOnVessel | inTransitOcean
  | atDestinationTerminal | inTransitFromTerminal | atDestinationRailRamp
  | inTransitRailToDepot | inTransitToDepot | atDestinationDepot
deriving DecidableEq

inductive EventType
  | inMotion | motionStop | locationUpdate | doorOpened | doorClosed | gateIn | gateOut
deriving DecidableEq

/-! ## models/container.py -/

structure ContainerMetadata where
  containerId : String
  trackerId : String
  assetId : ℤ
  containerType : String
  refrigerated : Bool
  cargoType : String
deriving DecidableEq

structure Container where
  metadata : ContainerMetadata
  state : ContainerState
  reportSlot : ℕ
  latitude : ℚ
  longitude : ℚ
  originDepot : Option Geofence
  originRailRamp : Option Geofence
  originTerminal : Option Geofence
  destinationTerminal : Option Geofence
  destinationRailRamp : Option Geofence
  destinationDepot : Option Geofence
  vesselId : Option String
  useRail : Bool
  currentRoute : List (ℚ × ℚ)
  routeIndex : ℕ
  isMoving : Bool
  doorOpen : Bool
  currentGeofence : Option String
  lastEventTime : Option ℤ
  journeyStartTime : Option ℤ
deriving DecidableEq

/-- Container() dataclass defaults (identity fields supplied). -/
def newContainer (m : ContainerMetadata) : Container :=
  { metadata := m, state := .atOriginDepot, reportSlot := 0, latitude := 0, longitude := 0,
    originDepot := none, originRailRamp := none, originTerminal := none,
    destinationTerminal := none, destinationRailRamp := none, destinationDepot := none,
    vesselId := none, useRail := false, currentRoute := [], routeIndex := 0,
    isMoving := false, doorOpen := false, currentGeofence := none,
    lastEventTime := none, journeyStartTime := none }

/-- The valid-transitions table of Container.transition_to. -/
def validTransitions : ContainerState → List ContainerState
  | .atOriginDepot => [.inTransitToTerminal, .inTransitToRailRamp]
  | .inTransitToTerminal => [.atOriginTerminal]
  | .atOriginTerminal => [.loadedOnVessel]
  | .loadedOnVessel => [.inTransitOcean]
  | .inTransitOcean => [.atDestinationTerminal]
  | .atDestinationTerminal => [.inTransitToDepot, .inTransitFromTerminal]
  | .inTransitToDepot => [.atDestinationDepot]
  | .atDestinationDepot => [.inTransitToTerminal, .inTransitToRailRamp]
  | .inTransitToRailRamp => [.atOriginRailRamp]
  | .atOriginRailRamp => [.inTransitRail]
  | .inTransitRail => [.inTransitToTerminal]
  | .inTransitFromTerminal => [.atDestinationRailRamp]
  | .atDestinationRailRamp => [.inTransitRailToDepot]
  | .inTransitRailToDepot => [.inTransitToDepot]

/-- Container.transition_to: `some` of the updated container when the
target is in the valid-transitions set of the current state, `none` for
the raised ValueError (which mutates nothing). -/
def transitionTo (c : Container) (ns : ContainerState) : Option Container :=
  if ns ∈ validTransitions c.state then some { c with state := ns } else none

/-- A requested transition as executed inside the scheduler's guarded
`try`: the raised ValueError is caught and ignored, so an invalid request
leaves the container exactly as it was. -/
def requestTransition (c : Container) (ns : ContainerState) : Container :=
  (transitionTo c ns).getD c

/-- Container.to_dict's handling of a journey-endpoint reference:
`properties.name or obj.get("name")` — `none` when absent or when the
name is the empty (falsy) string. -/
def endpointName (o : Option Geofence) : Option String :=
  o.bind (fun g => if g.name = "" then none else some g.name)

/-- Container document persisted by Container.to_dict. -/
structure ContainerDoc where
  containerId : String
  trackerId : String
  assetId : ℤ
  containerType : String
  refrigerated : Bool
  cargoType : String
  state : ContainerState
  latitude : ℚ
  longitude : ℚ
  isMoving : Bool
  doorOpen : Bool
  currentGeofence : Option String
  vesselId : Option String
  useRail : Bool
  originDepot : Option String
  originRailRamp : Option String
  originTerminal : Option String
  destinationTerminal : Option String
  destinationRailRamp : Option String
  destinationDepot : Option String
deriving DecidableEq

/-- Container.to_dict. -/
def containerToDoc (c : Container) : ContainerDoc :=
  { containerId := c.metadata.containerId, trackerId := c.metadata.trackerId,
    assetId := c.metadata.assetId, containerType := c.metadata.containerType,
    refrigerated := c.metadata.refrigerated, cargoType := c.metadata.cargoType,
    state := c.state, latitude := c.latitude, longitude := c.longitude,
    isMoving := c.isMoving, doorOpen := c.doorOpen,
    currentGeofence := c.currentGeofence, vesselId := c.vesselId, useRail := c.useRail,
    originDepot := endpointName c.originDepot,
    originRailRamp := endpointName c.originRailRamp,
    originTerminal := endpointName c.originTerminal,
    destinationTerminal := endpointName c.destinationTerminal,
    destinationRailRamp := endpointName c.destinationRailRamp,
    destinationDepot := endpointName c.destinationDepot }

/-! ## core/event_generator.py -/

structure IoTEvent where
  trackerId : String
  assetName : String
  assetId : ℤ
  eventTime : ℤ
  reportTime : ℤ
  latitude : ℚ
  longitude : ℚ
  eventType : EventType
  eventLocation : String
  eventLocationCountry : Option String
deriving DecidableEq

/-- IoTEvent.__init__'s `event_location or "In Transit"`: the sentinel
replaces both a missing and an empty (falsy) name. -/
def mkEventLocation (o : Option String) : String :=
  match o with
  | some s => if s = "" then "In Transit" else s
  | none => "In Transit"

/-- _get_country_from_geofence: first two characters of the UNLOCode if it
has at least two, else of the name if it has at least two, else none. -/
def countryFromGeofence (o : Option Geofence) : Option String :=
  match o with
  | none => none
  | some g =>
    let unlo := g.unloCode.getD ""
    if 2 ≤ unlo.length then some (unlo.take 2)
    else if 2 ≤ g.name.length then some (g.name.take 2)
    else none

def REPORT_DELAY_MIN : ℤ := 30
def REPORT_DELAY_MAX : ℤ := 600

/-- EventGenerator._get_report_time: event time plus a uniform delay in
[30, 600] simulated seconds. -/
def getReportTime (r : Rng) (t : ℤ) : ℤ × Rng :=
  let d := r.randInt REPORT_DELAY_MIN REPORT_DELAY_MAX
  (t + d.1, d.2)

/-- Common body of the event constructors. -/
def mkIoTEvent (c : Container) (t : ℤ) (ty : EventType) (gf : Option Geofence)
    (r : Rng) : IoTEvent × Rng :=
  let rep := getReportTime r t
  ({ trackerId := c.metadata.trackerId, assetName := c.metadata.containerId,
     assetId := c.metadata.assetId, eventTime := t, reportTime := rep.1,
     latitude := c.latitude, longitude := c.longitude, eventType := ty,
     eventLocation := mkEventLocation (gf.map Geofence.name),
     eventLocationCountry := countryFromGeofence gf }, rep.2)

def createLocationUpdate (c : Container) (t : ℤ) (gf : Option Geofence)
    (r : Rng) : IoTEvent × Rng :=
  mkIoTEvent c t .locationUpdate gf r

def createMotionEvent (c : Container) (t : ℤ) (isStart : Bool) (gf : Option Geofence)
    (r : Rng) : IoTEvent × Rng :=
  mkIoTEvent c t (if isStart then .inMotion else .motionStop) gf r

def createDoorEvent (c : Container) (t : ℤ) (isOpen : Bool) (gf : Option Geofence)
    (r : Rng) : IoTEvent × Rng :=
  mkIoTEvent c t (if isOpen then .doorOpened else .doorClosed) gf r

def createGateEvent (c : Container) (t : ℤ) (isEntry : Bool) (gf : Geofence)
    (r : Rng) : IoTEvent × Rng :=
  mkIoTEvent c t (if isEntry then .gateIn else .gateOut) (some gf) r

/-- generate_stop_events: a MotionStop event, and with probability
DOOR_EVENT_PROBABILITY a Door Opened event 30–300 s later plus a Door
Closed event a further 60–1800 s after that. -/
def generateStopEvents (c : Container) (t : ℤ) (gf : Option Geofence)
    (r : Rng) (includeDoorEvents : Bool) : List IoTEvent × Rng :=
  let stop := createMotionEvent c t false gf r
  if includeDoorEvents then
    let b := stop.2.bern
    if b.1 then
      let d1 := b.2.randInt 30 300
      let openEv := createDoorEvent c (t + d1.1) true gf d1.2
      let d2 := openEv.2.randInt 60 1800
      let closeEv := createDoorEvent c (t + d1.1 + d2.1) false gf d2.2
      ([stop.1, openEv.1, closeEv.1], closeEv.2)
    else ([stop.1], b.2)
  else ([stop.1], stop.2)

/-! ## simulator.py : per-container update, transition, journey, checkpoint -/

/-- The scheduler's route generators (generate_land_route,
generate_rail_route, generate_ocean_route) as oracles: random- and
geometry-dependent waypoint lists. Their internal structure is embedded
separately (validateOceanRoute, addRouteVariation, buildChokepointRoute). -/
structure RouteOracle where
  land : Geofence → Geofence → List (ℚ × ℚ)
  rail : Geofence → Geofence → List (ℚ × ℚ)
  ocean : Geofence → Geofence → List (ℚ × ℚ)

/-- A journey as returned by select_journey. -/
structure Journey where
  originDepot : Option Geofence
  originRailRamp : Option Geofence
  originTerminal : Option Geofence
  destinationTerminal : Option Geofence
  destinationRailRamp : Option Geofence
  destinationDepot : Option Geofence
  useRail : Bool

/-- _assign_new_journey. `jo = none` models select_journey raising (no
terminals), which the surrounding try/except turns into a no-op. -/
def assignNewJourney (jo : Option Journey) (simTime : ℤ) (c : Container)
    (r : Rng) : Container × Rng :=
  match jo with
  | none => (c, r)
  | some j =>
    let c1 := { c with
      originDepot := j.originDepot, originRailRamp := j.originRailRamp,
      originTerminal := j.originTerminal, destinationTerminal := j.destinationTerminal,
      destinationRailRamp := j.destinationRailRamp, destinationDepot := j.destinationDepot,
      useRail := j.useRail, state := ContainerState.atOriginDepot,
      routeIndex := 0, currentRoute := [] }
    let c2 :=
      match j.originDepot with
      | some d => { c1 with latitude := (getCentroid d).2, longitude := (getCentroid d).1 }
      | none => c1
    let h := r.randInt 1 12
    ({ c2 with journeyStartTime := some (simTime + 3600 * h.1) }, h.2)

/-- Arrival at a stationary state: transition, clear the route, reset the
index (the shape shared by several _transition_container_state branches). -/
def simpleArrive (c : Container) (r : Rng) (ns : ContainerState) : Container × Rng :=
  match transitionTo c ns with
  | none => (c, r)
  | some c1 => ({ c1 with currentRoute := [], routeIndex := 0 }, r)

/-- _transition_container_state. The ValueError of an invalid
transition_to is caught (branches return the container unmutated, since
transition_to is the first statement of every branch). In the two
branches where the source would dereference a missing origin/destination
geofence (an uncaught AttributeError), the observable mutation performed
before the raise is exactly the state change, which is what the
fall-through cases return. -/
def transitionContainerState (ro : RouteOracle) (jo : Option Journey) (simTime : ℤ)
    (c : Container) (r : Rng) : Container × Rng :=
  match c.state with
  | .atOriginDepot =>
    if c.useRail && c.originRailRamp.isSome then
      match transitionTo c .inTransitToRailRamp with
      | none => (c, r)
      | some c1 =>
        match c.originDepot, c.originRailRamp with
        | some d, some rr => ({ c1 with currentRoute := ro.land d rr, routeIndex := 0 }, r)
        | _, _ => (c1, r)
    else
      match transitionTo c .inTransitToTerminal with
      | none => (c, r)
      | some c1 =>
        let c2 :=
          match c.originDepot, c.originTerminal with
          | some d, some t => { c1 with currentRoute := ro.land d t }
          | _, _ => c1
        ({ c2 with routeIndex := 0 }, r)
  | .inTransitToRailRamp => simpleArrive c r .atOriginRailRamp
  | .atOriginRailRamp =>
    match transitionTo c .inTransitRail with
    | none => (c, r)
    | some c1 =>
      match c.originRailRamp, c.originTerminal with
      | some a, some b => ({ c1 with currentRoute := ro.rail a b, routeIndex := 0 }, r)
      | _, _ => (c1, r)
  | .inTransitRail => simpleArrive c r .inTransitToTerminal
  | .inTransitToTerminal => simpleArrive c r .atOriginTerminal
  | .atOriginTerminal =>
    match transitionTo c .loadedOnVessel with
    | none => (c, r)
    | some c1 => (c1, r)
  | .loadedOnVessel =>
    match transitionTo c .inTransitOcean with
    | none => (c, r)
    | some c1 =>
      match c.originTerminal, c.destinationTerminal with
      | some a, some b => ({ c1 with currentRoute := ro.ocean a b, routeIndex := 0 }, r)
      | _, _ => (c1, r)
  | .inTransitOcean => simpleArrive c r .atDestinationTerminal
  | .atDestinationTerminal =>
    if c.useRail && c.destinationRailRamp.isSome then
      match transitionTo c .inTransitFromTerminal with
      | none => (c, r)
      | some c1 =>
        match c.destinationTerminal, c.destinationRailRamp with
        | some a, some b => ({ c1 with currentRoute := ro.land a b, routeIndex := 0 }, r)
        | _, _ => (c1, r)
    else
      match transitionTo c .inTransitToDepot with
      | none => (c, r)
      | some c1 =>
        let c2 :=
          match c.destinationTerminal, c.destinationDepot with
          | some a, some b => { c1 with currentRoute := ro.land a b }
          | _, _ => c1
        ({ c2 with routeIndex := 0 }, r)
  | .inTransitFromTerminal => simpleArrive c r .atDestinationRailRamp
  | .atDestinationRailRamp =>
    match transitionTo c .inTransitRailToDepot with
    | none => (c, r)
    | some c1 =>
      match c.destinationRailRamp, c.destinationDepot with
      | some a, some b => ({ c1 with currentRoute := ro.rail a b, routeIndex := 0 }, r)
      | _, _ => (c1, r)
  | .inTransitRailToDepot => simpleArrive c r .inTransitToDepot
  | .inTransitToDepot => simpleArrive c r .atDestinationDepot
  | .atDestinationDepot => assignNewJourney jo simTime c r

/-- Python truthiness of an optional string (None and "" are falsy). -/
def strOptTruthy : Option String → Bool
  | some s => decide (s ≠ "")
  | none => false

/-- The geofence-transition block of _update_container: detect a changed
resolved geofence, emit GateOut on exit to no geofence (if the old name
resolves in the store), emit GateIn on entry to a (truthy) new name, and
record the new name. `gfOpt` is the check_point result at the container's
current position. -/
def gatePhase (byName : String → Option Geofence) (gfOpt : Option Geofence)
    (simTime : ℤ) (c : Container) (r : Rng) : Container × List IoTEvent × Rng :=
  let currentName := gfOpt.map Geofence.name
  if currentName ≠ c.currentGeofence then
    let gOut :=
      if strOptTruthy c.currentGeofence && !strOptTruthy currentName then
        match byName (c.currentGeofence.getD "") with
        | some og =>
          let e := createGateEvent c simTime false og r
          ([e.1], e.2)
        | none => ([], r)
      else ([], r)
    let gIn :=
      if strOptTruthy currentName && decide (currentName ≠ c.currentGeofence) then
        match gfOpt with
        | some gf =>
          let e := createGateEvent c simTime true gf gOut.2
          ([e.1], e.2)
        | none => ([], gOut.2)
      else ([], gOut.2)
    ({ c with currentGeofence := currentName }, gOut.1 ++ gIn.1, gIn.2)
  else (c, [], r)

/-- The route-advancement block of _update_container: move one waypoint
(emitting MotionStart when leaving index 0), or — only when a non-empty
route is exhausted — emit the stop events and invoke
_transition_container_state. A container with an empty route takes
neither branch. -/
def movePhase (ro : RouteOracle) (jo : Option Journey) (gfOpt : Option Geofence)
    (simTime : ℤ) (c : Container) (r : Rng) : Container × List IoTEvent × Rng :=
  if c.currentRoute ≠ [] ∧ c.routeIndex < c.currentRoute.length - 1 then
    let newIdx := c.routeIndex + 1
    let next := c.currentRoute.getD newIdx (0, 0)
    let c1 := { c with routeIndex := newIdx, latitude := next.2, longitude := next.1 }
    if newIdx = 1 then
      let me := createMotionEvent c1 simTime true gfOpt r
      ({ c1 with isMoving := true }, [me.1], me.2)
    else (c1, [], r)
  else if c.currentRoute ≠ [] ∧ c.currentRoute.length - 1 ≤ c.routeIndex then
    let s :=
      if c.isMoving then
        let se := generateStopEvents c simTime gfOpt r true
        ({ c with isMoving := false }, se.1, se.2)
      else (c, [], r)
    let t := transitionContainerState ro jo simTime s.1 s.2.2
    (t.1, s.2.1, t.2)
  else (c, [], r)

structure UpdateResult where
  container : Container
  events : List IoTEvent
  rng : Rng

/-- _update_container. `q` is the check_point point-in-polygon oracle,
`byName` the get_geofence_by_name oracle. Event order matches the source:
gate events, then the LocationUpdate, then motion/stop events. -/
def updateContainer (q : ℚ × ℚ → Option Geofence) (byName : String → Option Geofence)
    (ro : RouteOracle) (jo : Option Journey) (simTime : ℤ) (c : Container)
    (r : Rng) : UpdateResult :=
  if (match c.journeyStartTime with
      | some ts => decide (simTime < ts)
      | none => false) then ⟨c, [], r⟩
  else
    let timeSinceLast : ℤ :=
      match c.lastEventTime with
      | some lt => simTime - lt
      | none => EVENT_INTERVAL_SECONDS + 1
    if timeSinceLast < EVENT_INTERVAL_SECONDS then ⟨c, [], r⟩
    else
      let gfOpt := q (c.longitude, c.latitude)
      let g := gatePhase byName gfOpt simTime c r
      let loc := createLocationUpdate g.1 simTime gfOpt g.2.2
      let c2 := { g.1 with lastEventTime := some simTime }
      let m := movePhase ro jo gfOpt simTime c2 loc.2
      ⟨m.1, g.2.1 ++ [loc.1] ++ m.2.1, m.2.2⟩

/-- Successive scheduler visits of one container: each element of `times`
is the sim_time of one eligible-slot visit; events concatenate in
emission order. -/
def runUpdates (q : ℚ × ℚ → Option Geofence) (byName : String → Option Geofence)
    (ro : RouteOracle) (jo : Option Journey) :
    List ℤ → Container → Rng → List IoTEvent
  | [], _, _ => []
  | t :: ts, c, r =>
    let u := updateContainer q byName ro jo t c r
    u.events ++ runUpdates q byName ro jo ts u.container u.rng

/-- One saved container entry of the checkpoint file (§4.8 / save_state). -/
structure SavedContainer where
  state : ContainerState
  reportSlot : ℕ
  latitude : ℚ
  longitude : ℚ
  isMoving : Bool
  routeIndex : ℕ
  useRail : Bool
  currentGeofence : Option String
  journeyStartTime : Option ℤ
  lastEventTime : Option ℤ
deriving DecidableEq

/-- The per-container overlay of load_state: every saved runtime field is
copied onto the freshly bootstrapped container; the two timestamps only
when truthy; the route itself is not persisted and keeps whatever the
bootstrap generated. -/
def restoreContainer (c : Container) (s : SavedContainer) : Container :=
  let c1 := { c with
    state := s.state, reportSlot := s.reportSlot, latitude := s.latitude,
    longitude := s.longitude, isMoving := s.isMoving, routeIndex := s.routeIndex,
    useRail := s.useRail, currentGeofence := s.currentGeofence }
  let c2 :=
    match s.journeyStartTime with
    | some t => { c1 with journeyStartTime := some t }
    | none => c1
  match s.lastEventTime with
  | some t => { c2 with lastEventTime := some t }
  | none => c2

/-! ## Predicates used by the claims -/

/-- §8 route-index invariant: `0 ≤ route_index ≤ len(current_route)` (the
lower bound is inherent to the ℕ model; the index is only ever assigned 0
or incremented). -/
def routeIndexInv (c : Container) : Prop := c.routeIndex ≤ c.currentRoute.length

/-- §8 report-delay invariant for a single event. -/
def reportDelayOk (e : IoTEvent) : Prop :=
  30 ≤ e.reportTime - e.eventTime ∧ e.reportTime - e.eventTime ≤ 600

/-- Eligibility of a container at sim_time `t`: its journey has started
and at least EVENT_INTERVAL_SECONDS of sim time passed since its last
event (both vacuously true for absent timestamps). -/
def eligible (t : ℤ) (c : Container) : Prop :=
  (∀ ts, c.journeyStartTime = some ts → ts ≤ t) ∧
  (∀ lt, c.lastEventTime = some lt → lt + EVENT_INTERVAL_SECONDS ≤ t)

def isDoorType : EventType → Bool
  | .doorOpened => true
  | .doorClosed => true
  | _ => false

/-- The (direction, geofence-name) subsequence of gate events of an event
list: `true` for GateIn, `false` for GateOut. -/
def gateSeq (evs : List IoTEvent) : List (Bool × String) :=
  evs.filterMap (fun e =>
    match e.eventType with
    | .gateIn => some (true, e.eventLocation)
    | .gateOut => some (false, e.eventLocation)
    | _ => none)

/-- Admissible successor of a gate event: after GateIn g comes GateOut g
or a GateIn for a different geofence; after GateOut comes a GateIn. -/
def gateRel : Bool × String → Bool × String → Prop
  | (true, g), b => b = (false, g) ∨ (b.1 = true ∧ b.2 ≠ g)
  | (false, _), b => b.1 = true

/-- Admissible first gate event given the container's current geofence. -/
def nextOk : Option String → Bool × String → Prop
  | some g, x => x = (false, g) ∨ (x.1 = true ∧ x.2 ≠ g)
  | none, x => x.1 = true

/-! ## Concrete fixtures for closed theorems -/

def rng0 : Rng := { nats := fun _ => 0, bits := fun _ => false, pos := 0 }

def meta0 : ContainerMetadata :=
  { containerId := "ZIMU0000001", trackerId := "A0000001", assetId := 30000,
    containerType := "40ft", refrigerated := false, cargoType := "General Cargo" }

def gfDepot : Geofence :=
  { name := "USNYC-DEPOT1", unloCode := some ("USNYC"),
    ring := [(0, 0), (0, 1), (1, 1), (1, 0), (0, 0)] }

def gfTerm : Geofence :=
  { name := "USNYC-APM", unloCode := some ("USNYC"),
    ring := [(2, 2), (2, 3), (3, 3), (3, 2), (2, 2)] }

def baseContainer : Container :=
  { metadata := meta0, state := .inTransitToTerminal, reportSlot := 0,
    latitude := 0, longitude := 0,
    originDepot := some gfDepot, originRailRamp := none, originTerminal := some gfTerm,
    destinationTerminal := some gfTerm, destinationRailRamp := none,
    destinationDepot := some gfDepot, vesselId := none, useRail := false,
    currentRoute := [(0, 0), (10, 10)], routeIndex := 0, isMoving := false,
    doorOpen := false, currentGeofence := none,
    lastEventTime := none, journeyStartTime := none }

def qNone : ℚ × ℚ → Option Geofence := fun _ => none

def qTerm : ℚ × ℚ → Option Geofence := fun _ => some gfTerm

/-- check_point oracle containing only the depot polygon's bounding square. -/
def qDepotBox : ℚ × ℚ → Option Geofence := fun p =>
  if 0 ≤ p.1 ∧ p.1 ≤ 1 ∧ 0 ≤ p.2 ∧ p.2 ≤ 1 then some gfDepot else none

def byNameNone : String → Option Geofence := fun _ => none

/-- get_geofence_by_name oracle for the two fixture geofences. -/
def byNameFix : String → Option Geofence := fun n =>
  if n = gfDepot.name then some gfDepot
  else if n = gfTerm.name then some gfTerm
  else none

def routesEmpty : RouteOracle :=
  { land := fun _ _ => [], rail := fun _ _ => [], ocean := fun _ _ => [] }

/-- Great-circle oracle used in witnesses: `n+1` copies of the origin
(the source always returns `num_points + 1` samples). -/
def gcConst : GCOracle := fun a _ n => List.replicate (n + 1) a

/-- A container in LOADED_ON_VESSEL: the state carries no route. -/
def stuckContainer : Container :=
  { baseContainer with state := .loadedOnVessel, currentRoute := [], routeIndex := 0 }

/-- A container standing inside the depot geofence with a route leading
out of it. -/
def cexGeoContainer : Container :=
  { baseContainer with currentGeofence := some ("USNYC-DEPOT1") }

/-- A container whose recorded geofence differs from the one resolved at
its position (a direct geofence-to-geofence change). -/
def cexGateContainer : Container :=
  { baseContainer with currentGeofence := some ("OLDFENCE") }

/-- A container with a recorded last event at sim second 0. -/
def dueContainer : Container := { baseContainer with lastEventTime := some 0 }

/-- A checkpoint entry saved mid-ocean (route index 50), to be overlaid on
a freshly bootstrapped container whose regenerated land route is short. -/
def savedOcean : SavedContainer :=
  { state := .inTransitOcean, reportSlot := 0, latitude := 50, longitude := 50,
    isMoving := true, routeIndex := 50, useRail := false, currentGeofence := none,
    journeyStartTime := none, lastEventTime := none }

/-- The waypoint list a chokepoint key contributes to a built route. -/
def chokepointWps (k : String) : List (ℚ × ℚ) :=
  ((chokepointFor k).map Chokepoint.waypoints).getD []

/-- The Malacca, Bab el-Mandeb, Suez and Gibraltar waypoints named by the
Asia-Europe scenario (S3), in claimed order. -/
def asiaEuropePattern : List (ℚ × ℚ) :=
  [(100.0, 5.0), (103.5, 1.2), (43.3, 12.6), (32.55, 30.00), (-5.6, 35.95)]

/-! ## Basic lemmas about the random source and the event constructors -/

theorem randInt_bounds (r : Rng) {lo hi : ℤ} (h : lo ≤ hi) :
    lo ≤ (r.randInt lo hi).1 ∧ (r.randInt lo hi).1 ≤ hi := by
  unfold Rng.randInt
  have hpos : (0 : ℤ) < hi - lo + 1 := by omega
  have h1 : 0 ≤ ((r.nats r.pos : ℤ)) % (hi - lo + 1) :=
    Int.emod_nonneg _ (by omega)
  have h2 : ((r.nats r.pos : ℤ)) % (hi - lo + 1) < hi - lo + 1 :=
    Int.emod_lt_of_pos _ hpos
  constructor <;> simp <;> omega

theorem mkIoTEvent_time (c : Container) (t : ℤ) (ty : EventType) (gf : Option Geofence)
    (r : Rng) : (mkIoTEvent c t ty gf r).1.eventTime = t := rfl

theorem mkIoTEvent_type (c : Container) (t : ℤ) (ty : EventType) (gf : Option Geofence)
    (r : Rng) : (mkIoTEvent c t ty gf r).1.eventType = ty := rfl

theorem mkIoTEvent_delay (c : Container) (t : ℤ) (ty : EventType) (gf : Option Geofence)
    (r : Rng) : reportDelayOk (mkIoTEvent c t ty gf r).1 := by
  have h := randInt_bounds r (show REPORT_DELAY_MIN ≤ REPORT_DELAY_MAX by decide)
  unfold reportDelayOk mkIoTEvent getReportTime
  unfold REPORT_DELAY_MIN REPORT_DELAY_MAX at h ⊢
  simp only
  omega

theorem createMotionEvent_delay (c : Container) (t : ℤ) (isStart : Bool)
    (gf : Option Geofence) (r : Rng) : reportDelayOk (createMotionEvent c t isStart gf r).1 :=
  mkIoTEvent_delay ..

theorem createDoorEvent_delay (c : Container) (t : ℤ) (isOpen : Bool)
    (gf : Option Geofence) (r : Rng) : reportDelayOk (createDoorEvent c t isOpen gf r).1 :=
  mkIoTEvent_delay ..

/-! ## C2: invalid transitions are rejected without mutation -/

/-- C2. For every container and every target state outside the
valid-transitions set of its current state, transition_to raises (models
as `none`, with no field mutated) and the scheduler's guarded request is
the identity on the container: an invalid transition is a silent no-op,
not an error that propagates. -/
theorem c2_invalid_transition_noop (c : Container) (ns : ContainerState)
    (h : ns ∉ validTransitions c.state) :
    transitionTo c ns = none ∧ requestTransition c ns = c := by
  unfold requestTransition transitionTo
  simp [h]

theorem c2_witness :
    ContainerState.loadedOnVessel ∉ validTransitions baseContainer.state ∧
    transitionTo baseContainer .loadedOnVessel = none ∧
    requestTransition baseContainer .loadedOnVessel = baseContainer := by
  refine ⟨by decide, ?_, ?_⟩
  · exact (c2_invalid_transition_noop baseContainer .loadedOnVessel (by decide)).1
  · exact (c2_invalid_transition_noop baseContainer .loadedOnVessel (by decide)).2

/-! ## C9: report delay is in [30, 600] for every constructor -/

/-- C9. Every event built by the emitter — location update, motion, door
and gate events, and the whole stop-event bundle — carries
report_time − event_time in the closed interval [30, 600] simulated
seconds. -/
theorem c9_report_delay (c : Container) (t : ℤ) (gf : Option Geofence) (gf2 : Geofence)
    (r : Rng) (isStart isOpen isEntry incl : Bool) :
    reportDelayOk (createLocationUpdate c t gf r).1 ∧
    reportDelayOk (createMotionEvent c t isStart gf r).1 ∧
    reportDelayOk (createDoorEvent c t isOpen gf r).1 ∧
    reportDelayOk (createGateEvent c t isEntry gf2 r).1 ∧
    ∀ e ∈ (generateStopEvents c t gf r incl).1, reportDelayOk e := by
  refine ⟨mkIoTEvent_delay .., mkIoTEvent_delay .., mkIoTEvent_delay .., mkIoTEvent_delay .., ?_⟩
  intro e he
  simp only [generateStopEvents] at he
  by_cases hincl : incl = true
  · rw [if_pos hincl] at he
    by_cases hb : ((createMotionEvent c t false gf r).2.bern).1 = true
    · rw [if_pos hb] at he
      simp only [List.mem_cons, List.not_mem_nil, or_false] at he
      rcases he with h | h | h
      · exact h ▸ createMotionEvent_delay ..
      · exact h ▸ createDoorEvent_delay ..
      · exact h ▸ createDoorEvent_delay ..
    · rw [if_neg hb] at he
      simp only [List.mem_cons, List.not_mem_nil, or_false] at he
      exact he ▸ createMotionEvent_delay ..
  · rw [if_neg hincl] at he
    simp only [List.mem_cons, List.not_mem_nil, or_false] at he
    exact he ▸ createMotionEvent_delay ..

theorem c9_witness :
    reportDelayOk ((generateStopEvents baseContainer 0 none rng0 true).1.headD
      (createLocationUpdate baseContainer 0 none rng0).1) := by
  exact (c9_report_delay baseContainer 0 none gfTerm rng0 true true true true).2.2.2.2 _ (by decide)

/-! ## C6: the perturbation and water-validation passes preserve length and endpoints -/

theorem adjustMid_length : ∀ l : List (ℚ × ℚ), (adjustMid l).length = l.length
  | [] => rfl
  | [_] => rfl
  | x :: y :: xs => by
    show (adjustWaypoint x :: adjustMid (y :: xs)).length = _
    simp [adjustMid_length (y :: xs)]

theorem adjustMid_getLast? : ∀ l : List (ℚ × ℚ), (adjustMid l).getLast? = l.getLast?
  | [] => rfl
  | [_] => rfl
  | x :: y :: xs => by
    have ih := adjustMid_getLast? (y :: xs)
    show (adjustWaypoint x :: adjustMid (y :: xs)).getLast? = _
    cases hm : adjustMid (y :: xs) with
    | nil => exact absurd (congrArg List.length hm) (by simp [adjustMid_length])
    | cons w ws =>
      rw [hm] at ih
      rw [List.getLast?_cons_cons, ih, List.getLast?_cons_cons]

theorem varyMid_length (f : ℕ → ℚ × ℚ → ℚ × ℚ) :
    ∀ (i : ℕ) (l : List (ℚ × ℚ)), (varyMid f i l).length = l.length
  | _, [] => rfl
  | _, [_] => rfl
  | i, x :: y :: xs => by
    show (_ :: varyMid f (i + 1) (y :: xs)).length = _
    simp [varyMid_length f (i + 1) (y :: xs)]

theorem varyMid_getLast? (f : ℕ → ℚ × ℚ → ℚ × ℚ) :
    ∀ (i : ℕ) (l : List (ℚ × ℚ)), (varyMid f i l).getLast? = l.getLast?
  | _, [] => rfl
  | _, [_] => rfl
  | i, x :: y :: xs => by
    have ih := varyMid_getLast? f (i + 1) (y :: xs)
    show ((x.1 + (f i x).1, x.2 + (f i x).2) :: varyMid f (i + 1) (y :: xs)).getLast? = _
    cases hm : varyMid f (i + 1) (y :: xs) with
    | nil => exact absurd (congrArg List.length hm) (by simp [varyMid_length])
    | cons w ws =>
      rw [hm] at ih
      rw [List.getLast?_cons_cons, ih, List.getLast?_cons_cons]

/-- C6. Both _add_route_variation (for any deviation oracle) and
_validate_ocean_route return a list of the same length as their input
whose first and last elements equal the input's first and last elements:
route endpoints are never modified. -/
theorem c6_endpoints_preserved (f : ℕ → ℚ × ℚ → ℚ × ℚ) (l : List (ℚ × ℚ)) :
    (addRouteVariation f l).length = l.length ∧
    (addRouteVariation f l).head? = l.head? ∧
    (addRouteVariation f l).getLast? = l.getLast? ∧
    (validateOceanRoute l).length = l.length ∧
    (validateOceanRoute l).head? = l.head? ∧
    (validateOceanRoute l).getLast? = l.getLast? := by
  cases l with
  | nil => exact ⟨rfl, rfl, rfl, rfl, rfl, rfl⟩
  | cons a rest =>
    refine ⟨?_, rfl, ?_, ?_, rfl, ?_⟩
    · show (a :: varyMid f 1 rest).length = _
      simp [varyMid_length]
    · show (a :: varyMid f 1 rest).getLast? = _
      cases hm : varyMid f 1 rest with
      | nil =>
        have : rest = [] := by
          have := congrArg List.length hm
          simpa [varyMid_length] using this
        simp [this]
      | cons w ws =>
        have ih := varyMid_getLast? f 1 rest
        rw [hm] at ih
        cases rest with
        | nil => simp [varyMid] at hm
        | cons b bs => rw [List.getLast?_cons_cons, ih, List.getLast?_cons_cons]
    · show (a :: adjustMid rest).length = _
      simp [adjustMid_length]
    · show (a :: adjustMid rest).getLast? = _
      cases hm : adjustMid rest with
      | nil =>
        have : rest = [] := by
          have := congrArg List.length hm
          simpa [adjustMid_length] using this
        simp [this]
      | cons w ws =>
        have ih := adjustMid_getLast? rest
        rw [hm] at ih
        cases rest with
        | nil => simp [adjustMid] at hm
        | cons b bs => rw [List.getLast?_cons_cons, ih, List.getLast?_cons_cons]

/-! ## Preservation lemmas for the scheduler operations -/

theorem transitionTo_eq (c : Container) (ns : ContainerState) :
    transitionTo c ns =
      if ns ∈ validTransitions c.state then some { c with state := ns } else none := rfl

theorem transitionTo_some {c : Container} {ns : ContainerState} {c' : Container}
    (h : transitionTo c ns = some c') : c' = { c with state := ns } := by
  rw [transitionTo_eq] at h
  by_cases hm : ns ∈ validTransitions c.state
  · rw [if_pos hm] at h
    exact (Option.some.inj h).symm
  · rw [if_neg hm] at h
    cases h

/-- _transition_container_state never touches door_open, current_geofence,
last_event_time or the identity metadata. -/
theorem transition_fields (ro : RouteOracle) (jo : Option Journey) (t : ℤ)
    (c : Container) (r : Rng) :
    (transitionContainerState ro jo t c r).1.doorOpen = c.doorOpen ∧
    (transitionContainerState ro jo t c r).1.currentGeofence = c.currentGeofence ∧
    (transitionContainerState ro jo t c r).1.lastEventTime = c.lastEventTime ∧
    (transitionContainerState ro jo t c r).1.metadata = c.metadata := by
  unfold transitionContainerState simpleArrive assignNewJourney
  cases hs : c.state <;> dsimp only <;> (try simp only [transitionTo_eq]) <;>
    (repeat' split) <;> (try simp_all) <;>
    (try (casesm* _ ∧ _ <;> subst_vars <;> simp_all))

/-- _transition_container_state preserves the route-index invariant: every
branch that installs a route resets the index to 0, and every other
branch leaves both fields unchanged. -/
theorem transition_inv (ro : RouteOracle) (jo : Option Journey) (t : ℤ)
    (c : Container) (r : Rng) (h : routeIndexInv c) :
    routeIndexInv (transitionContainerState ro jo t c r).1 := by
  unfold routeIndexInv at h ⊢
  unfold transitionContainerState simpleArrive assignNewJourney
  cases hs : c.state <;> dsimp only <;> (try simp only [transitionTo_eq]) <;>
    (repeat' split) <;> (try simp_all) <;>
    (try (casesm* _ ∧ _ <;> subst_vars <;> simp_all))

theorem assignNewJourney_fields (jo : Option Journey) (t : ℤ) (c : Container) (r : Rng) :
    (assignNewJourney jo t c r).1.doorOpen = c.doorOpen ∧
    (assignNewJourney jo t c r).1.currentGeofence = c.currentGeofence ∧
    (assignNewJourney jo t c r).1.lastEventTime = c.lastEventTime := by
  unfold assignNewJourney
  rcases jo with _ | j
  · exact ⟨rfl, rfl, rfl⟩
  · cases hd : j.originDepot <;> simp [hd]

/-- gatePhase only rewrites current_geofence (to the freshly resolved
name) and leaves every other container field unchanged. -/
theorem gatePhase_container (byName : String → Option Geofence) (gfOpt : Option Geofence)
    (t : ℤ) (c : Container) (r : Rng) :
    (gatePhase byName gfOpt t c r).1 = { c with currentGeofence := gfOpt.map Geofence.name } := by
  unfold gatePhase
  by_cases h : gfOpt.map Geofence.name ≠ c.currentGeofence
  · rw [if_pos h]
  · rw [if_neg h]
    push_neg at h
    rw [h]

theorem movePhase_doorOpen (ro : RouteOracle) (jo : Option Journey) (gfOpt : Option Geofence)
    (t : ℤ) (c : Container) (r : Rng) :
    (movePhase ro jo gfOpt t c r).1.doorOpen = c.doorOpen := by
  unfold movePhase
  dsimp only
  repeat' split
  all_goals first
    | rfl
    | exact (transition_fields ro jo t _ _).1

theorem movePhase_currentGeofence (ro : RouteOracle) (jo : Option Journey)
    (gfOpt : Option Geofence) (t : ℤ) (c : Container) (r : Rng) :
    (movePhase ro jo gfOpt t c r).1.currentGeofence = c.currentGeofence := by
  unfold movePhase
  dsimp only
  repeat' split
  all_goals first
    | rfl
    | exact (transition_fields ro jo t _ _).2.1

theorem movePhase_inv (ro : RouteOracle) (jo : Option Journey) (gfOpt : Option Geofence)
    (t : ℤ) (c : Container) (r : Rng) (h : routeIndexInv c) :
    routeIndexInv (movePhase ro jo gfOpt t c r).1 := by
  unfold routeIndexInv at h
  unfold movePhase
  dsimp only
  repeat' split
  all_goals first
    | exact h
    | (unfold routeIndexInv; dsimp only; omega)
    | exact transition_inv ro jo t _ _ h

theorem updateContainer_doorOpen (q : ℚ × ℚ → Option Geofence)
    (byName : String → Option Geofence) (ro : RouteOracle) (jo : Option Journey)
    (t : ℤ) (c : Container) (r : Rng) :
    (updateContainer q byName ro jo t c r).container.doorOpen = c.doorOpen := by
  unfold updateContainer
  dsimp only
  repeat' split
  all_goals first
    | rfl
    | simp [movePhase_doorOpen, gatePhase_container]

theorem updateContainer_inv (q : ℚ × ℚ → Option Geofence)
    (byName : String → Option Geofence) (ro : RouteOracle) (jo : Option Journey)
    (t : ℤ) (c : Container) (r : Rng) (h : routeIndexInv c) :
    routeIndexInv (updateContainer q byName ro jo t c r).container := by
  unfold updateContainer
  dsimp only
  repeat' split
  all_goals first
    | exact h
    | exact movePhase_inv _ _ _ _ _ _ (by rw [gatePhase_container]; exact h)

/-- In an eligible update the recorded geofence name after processing is
exactly the name of the geofence the point-in-polygon query resolved at
the position the container had when the query was made. -/
theorem updateContainer_geofence_eq (q : ℚ × ℚ → Option Geofence)
    (byName : String → Option Geofence) (ro : RouteOracle) (jo : Option Journey)
    (t : ℤ) (c : Container) (r : Rng)
    (hts : ∀ ts, c.journeyStartTime = some ts → ts ≤ t)
    (hlt : ∀ lt, c.lastEventTime = some lt → lt + EVENT_INTERVAL_SECONDS ≤ t) :
    (updateContainer q byName ro jo t c r).container.currentGeofence
      = (q (c.longitude, c.latitude)).map Geofence.name := by
  unfold updateContainer
  dsimp only
  have h1 : ¬ ((match c.journeyStartTime with
      | some ts => decide (t < ts)
      | none => false) = true) := by
    cases hj : c.journeyStartTime with
    | none => simp
    | some ts =>
      simp only [decide_eq_true_eq]
      exact not_lt.mpr (hts ts hj)
  have h2 : ¬ ((match c.lastEventTime with
      | some lt => t - lt
      | none => EVENT_INTERVAL_SECONDS + 1) < EVENT_INTERVAL_SECONDS) := by
    cases hl : c.lastEventTime with
    | none => unfold EVENT_INTERVAL_SECONDS; dsimp only; omega
    | some lt =>
      have := hlt lt hl
      unfold EVENT_INTERVAL_SECONDS at this ⊢
      dsimp only
      omega
  rw [if_neg h1, if_neg h2]
  simp [movePhase_currentGeofence, gatePhase_container]

/-! ## C10: door_open is never set by the simulation loop -/

/-- C10. door_open is False at creation and every simulation-loop
operation — the per-container update (stop events included), the
state-transition step, journey reassignment and checkpoint restore —
leaves it unchanged; the persisted container document reports exactly
this flag, hence always false. -/
theorem c10_door_open_never_set (m : ContainerMetadata) (q : ℚ × ℚ → Option Geofence)
    (byName : String → Option Geofence) (ro : RouteOracle) (jo : Option Journey)
    (t : ℤ) (c : Container) (r : Rng) (s : SavedContainer) :
    (newContainer m).doorOpen = false ∧
    (updateContainer q byName ro jo t c r).container.doorOpen = c.doorOpen ∧
    (transitionContainerState ro jo t c r).1.doorOpen = c.doorOpen ∧
    (assignNewJourney jo t c r).1.doorOpen = c.doorOpen ∧
    (restoreContainer c s).doorOpen = c.doorOpen ∧
    (containerToDoc c).doorOpen = c.doorOpen := by
  refine ⟨rfl, updateContainer_doorOpen .., (transition_fields ro jo t c r).1,
    (assignNewJourney_fields jo t c r).1, ?_, rfl⟩
  unfold restoreContainer
  dsimp only
  repeat' split
  all_goals rfl

/-! ## C8: the route-index invariant -/

theorem c8_counterexample :
    routeIndexInv baseContainer ∧
    (restoreContainer baseContainer savedOcean).routeIndex = 50 ∧
    (restoreContainer baseContainer savedOcean).currentRoute.length = 2 ∧
    ¬ routeIndexInv (restoreContainer baseContainer savedOcean) := by
  refine ⟨by unfold routeIndexInv; decide, rfl, rfl, ?_⟩
  unfold routeIndexInv
  decide

/-- C8 (amended). The invariant 0 ≤ route_index ≤ len(current_route) is
preserved by the per-container update, by the state-transition step and
by new-journey assignment (the lower bound is inherent to the ℕ index).
Checkpoint restore is excluded: it copies the saved route_index onto the
freshly regenerated route, which can be shorter. -/
theorem c8_route_index_invariant (q : ℚ × ℚ → Option Geofence)
    (byName : String → Option Geofence) (ro : RouteOracle) (jo : Option Journey)
    (t : ℤ) (c : Container) (r : Rng) (h : routeIndexInv c) :
    routeIndexInv (updateContainer q byName ro jo t c r).container ∧
    routeIndexInv (transitionContainerState ro jo t c r).1 ∧
    routeIndexInv (assignNewJourney jo t c r).1 := by
  refine ⟨updateContainer_inv _ _ _ _ _ _ _ h, transition_inv _ _ _ _ _ h, ?_⟩
  unfold assignNewJourney routeIndexInv
  rcases jo with _ | j
  · exact h
  · cases hd : j.originDepot <;> simp [hd]

theorem c8_witness :
    routeIndexInv (updateContainer qNone byNameNone routesEmpty none 0 baseContainer rng0).container ∧
    routeIndexInv (transitionContainerState routesEmpty none 0 baseContainer rng0).1 := by
  have h := c8_route_index_invariant qNone byNameNone routesEmpty none 0 baseContainer rng0
    (by unfold routeIndexInv; decide)
  exact ⟨h.1, h.2.1⟩

/-! ## C1: an empty route never reaches the state-transition rule -/

/-- C1 (the code defect). A container in LOADED_ON_VESSEL has an empty
route; at an eligible update the route-advancement branch and the
arrival branch both require a non-empty route, so the state-transition
rule is never invoked: the update emits its LocationUpdate but the state
stays LOADED_ON_VESSEL (and stays so on every later visit), although the
transition rule itself — had it been invoked, as §4.6 step 7 prescribes
for route_index + 1 ≥ len(route) — does move it to IN_TRANSIT_OCEAN. -/
theorem c1_empty_route_skips_transition :
    (updateContainer qNone byNameNone routesEmpty none 0 stuckContainer rng0).container.state
        = ContainerState.loadedOnVessel ∧
    (updateContainer qNone byNameNone routesEmpty none 0 stuckContainer rng0).container.currentRoute
        = [] ∧
    (updateContainer qNone byNameNone routesEmpty none 0 stuckContainer rng0).events.map
        IoTEvent.eventType = [EventType.locationUpdate] ∧
    (transitionContainerState routesEmpty none 0 stuckContainer rng0).1.state
        = ContainerState.inTransitOcean := by
  decide

/-! ## C3: current_geofence after processing -/

theorem c3_counterexample :
    (updateContainer qDepotBox byNameFix routesEmpty none 0 cexGeoContainer rng0).container.currentGeofence
        = some ("USNYC-DEPOT1") ∧
    qDepotBox
      ((updateContainer qDepotBox byNameFix routesEmpty none 0 cexGeoContainer rng0).container.longitude,
       (updateContainer qDepotBox byNameFix routesEmpty none 0 cexGeoContainer rng0).container.latitude)
        = none ∧
    (updateContainer qDepotBox byNameFix routesEmpty none 0 cexGeoContainer rng0).container.currentGeofence
      ≠ (qDepotBox
          ((updateContainer qDepotBox byNameFix routesEmpty none 0 cexGeoContainer rng0).container.longitude,
           (updateContainer qDepotBox byNameFix routesEmpty none 0 cexGeoContainer rng0).container.latitude)).map
          Geofence.name := by
  decide

/-- C3 (amended). At an eligible update, current_geofence after
processing equals the name of the geofence resolved by the
point-in-polygon query at the position the container occupied when the
scheduler resolved it — its position at the start of the update, before
the route advancement moved it (and is none iff that query returned
none). -/
theorem c3_geofence_matches_query (q : ℚ × ℚ → Option Geofence)
    (byName : String → Option Geofence) (ro : RouteOracle) (jo : Option Journey)
    (t : ℤ) (c : Container) (r : Rng) (h : eligible t c) :
    (updateContainer q byName ro jo t c r).container.currentGeofence
      = (q (c.longitude, c.latitude)).map Geofence.name := by
  exact updateContainer_geofence_eq q byName ro jo t c r h.1 h.2

theorem c3_witness :
    (updateContainer qTerm byNameNone routesEmpty none 0 baseContainer rng0).container.currentGeofence
      = (qTerm (baseContainer.longitude, baseContainer.latitude)).map Geofence.name := by
  exact c3_geofence_matches_query qTerm byNameNone routesEmpty none 0 baseContainer rng0
    (by unfold eligible; exact ⟨fun ts hts => (by cases hts), fun lt hlt => (by cases hlt)⟩)

/-! ## C4: per-container event-time ordering -/

theorem createGateEvent_time (c : Container) (t : ℤ) (isEntry : Bool) (gf : Geofence)
    (r : Rng) : (createGateEvent c t isEntry gf r).1.eventTime = t := rfl

theorem createGateEvent_type (c : Container) (t : ℤ) (isEntry : Bool) (gf : Geofence)
    (r : Rng) : (createGateEvent c t isEntry gf r).1.eventType
      = (if isEntry then EventType.gateIn else EventType.gateOut) := rfl

theorem createMotionEvent_time (c : Container) (t : ℤ) (isStart : Bool)
    (gf : Option Geofence) (r : Rng) : (createMotionEvent c t isStart gf r).1.eventTime = t := rfl

theorem createMotionEvent_type (c : Container) (t : ℤ) (isStart : Bool)
    (gf : Option Geofence) (r : Rng) : (createMotionEvent c t isStart gf r).1.eventType
      = (if isStart then EventType.inMotion else EventType.motionStop) := rfl

theorem createDoorEvent_time (c : Container) (t : ℤ) (isOpen : Bool)
    (gf : Option Geofence) (r : Rng) : (createDoorEvent c t isOpen gf r).1.eventTime = t := rfl

theorem createDoorEvent_type (c : Container) (t : ℤ) (isOpen : Bool)
    (gf : Option Geofence) (r : Rng) : (createDoorEvent c t isOpen gf r).1.eventType
      = (if isOpen then EventType.doorOpened else EventType.doorClosed) := rfl

theorem createLocationUpdate_time (c : Container) (t : ℤ) (gf : Option Geofence)
    (r : Rng) : (createLocationUpdate c t gf r).1.eventTime = t := rfl

theorem createLocationUpdate_type (c : Container) (t : ℤ) (gf : Option Geofence)
    (r : Rng) : (createLocationUpdate c t gf r).1.eventType = EventType.locationUpdate := rfl

/-- The stop-event bundle is emitted with non-decreasing event times: the
MotionStop at the stop time, the door events offset into the future. -/
theorem generateStopEvents_props (c : Container) (t : ℤ) (gf : Option Geofence)
    (r : Rng) (incl : Bool) :
    List.Chain' (fun a b => a.eventTime ≤ b.eventTime) (generateStopEvents c t gf r incl).1 ∧
    (∀ e ∈ (generateStopEvents c t gf r incl).1, t ≤ e.eventTime) ∧
    (∀ e ∈ (generateStopEvents c t gf r incl).1,
      isDoorType e.eventType = false → e.eventTime = t) ∧
    (∀ e ∈ (generateStopEvents c t gf r incl).1,
      e.eventType ≠ EventType.gateIn ∧ e.eventType ≠ EventType.gateOut) := by
  unfold generateStopEvents
  dsimp only
  by_cases hincl : incl = true
  · rw [if_pos hincl]
    by_cases hb : ((createMotionEvent c t false gf r).2.bern).1 = true
    · rw [if_pos hb]
      obtain ⟨h1a, h1b⟩ := randInt_bounds ((createMotionEvent c t false gf r).2.bern.2)
        (show (30 : ℤ) ≤ 300 by norm_num)
      obtain ⟨h2a, h2b⟩ := randInt_bounds
        ((createDoorEvent c
          (t + (((createMotionEvent c t false gf r).2.bern.2).randInt 30 300).1) true gf
          ((((createMotionEvent c t false gf r).2.bern.2).randInt 30 300).2)).2)
        (show (60 : ℤ) ≤ 1800 by norm_num)
      refine ⟨?_, ?_, ?_, ?_⟩
      · simp only [List.chain'_cons, List.chain'_singleton, and_true,
          createMotionEvent_time, createDoorEvent_time]
        constructor <;> omega
      · intro e he
        simp only [List.mem_cons, List.not_mem_nil, or_false] at he
        rcases he with rfl | rfl | rfl <;>
          simp only [createMotionEvent_time, createDoorEvent_time] <;> omega
      · intro e he
        simp only [List.mem_cons, List.not_mem_nil, or_false] at he
        rcases he with rfl | rfl | rfl <;>
          simp [createMotionEvent_time, createMotionEvent_type,
            createDoorEvent_time, createDoorEvent_type, isDoorType]
      · intro e he
        simp only [List.mem_cons, List.not_mem_nil, or_false] at he
        rcases he with rfl | rfl | rfl <;>
          simp [createMotionEvent_type, createDoorEvent_type]
    · rw [if_neg hb]
      refine ⟨List.chain'_singleton _, ?_, ?_, ?_⟩ <;> intro e he <;>
        simp only [List.mem_cons, List.not_mem_nil, or_false] at he <;>
        subst he <;> simp [createMotionEvent_time, createMotionEvent_type]
  · rw [if_neg hincl]
    refine ⟨List.chain'_singleton _, ?_, ?_, ?_⟩ <;> intro e he <;>
      simp only [List.mem_cons, List.not_mem_nil, or_false] at he <;>
      subst he <;> simp [createMotionEvent_time, createMotionEvent_type]

theorem gatePhase_events (byName : String → Option Geofence) (gfOpt : Option Geofence)
    (t : ℤ) (c : Container) (r : Rng) :
    ∀ e ∈ (gatePhase byName gfOpt t c r).2.1,
      e.eventTime = t ∧ (e.eventType = EventType.gateIn ∨ e.eventType = EventType.gateOut) := by
  unfold gatePhase
  dsimp only
  repeat' split
  all_goals intro e he
  all_goals simp only [List.mem_append, List.mem_cons, List.not_mem_nil, or_false,
    false_or, List.mem_singleton] at he
  all_goals first
    | exact False.elim he
    | (rcases he with rfl | rfl <;>
        simp [createGateEvent_time, createGateEvent_type])
    | (subst he; simp [createGateEvent_time, createGateEvent_type])

theorem movePhase_events (ro : RouteOracle) (jo : Option Journey) (gfOpt : Option Geofence)
    (t : ℤ) (c : Container) (r : Rng) :
    List.Chain' (fun a b => a.eventTime ≤ b.eventTime) (movePhase ro jo gfOpt t c r).2.1 ∧
    (∀ e ∈ (movePhase ro jo gfOpt t c r).2.1, t ≤ e.eventTime) ∧
    (∀ e ∈ (movePhase ro jo gfOpt t c r).2.1,
      isDoorType e.eventType = false → e.eventTime = t) ∧
    (∀ e ∈ (movePhase ro jo gfOpt t c r).2.1,
      e.eventType ≠ EventType.gateIn ∧ e.eventType ≠ EventType.gateOut) := by
  unfold movePhase
  dsimp only
  repeat' split
  all_goals first
    | (exact ⟨List.chain'_nil, fun e he => absurd he (List.not_mem_nil e),
        fun e he => absurd he (List.not_mem_nil e),
        fun e he => absurd he (List.not_mem_nil e)⟩)
    | (refine ⟨List.chain'_singleton _, ?_, ?_, ?_⟩ <;> intro e he <;>
        simp only [List.mem_cons, List.not_mem_nil, or_false] at he <;>
        subst he <;> simp [createMotionEvent_time, createMotionEvent_type])
    | exact generateStopEvents_props c t gfOpt r true

/-- Prefix of same-timestamp events followed by a non-decreasing tail of
not-earlier events is non-decreasing. -/
theorem chain_time_append (t : ℤ) (l₁ l₂ : List IoTEvent)
    (h₁ : ∀ e ∈ l₁, e.eventTime = t)
    (h₂ : List.Chain' (fun a b => a.eventTime ≤ b.eventTime) l₂)
    (h₃ : ∀ e ∈ l₂, t ≤ e.eventTime) :
    List.Chain' (fun a b => a.eventTime ≤ b.eventTime) (l₁ ++ l₂) := by
  induction l₁ with
  | nil => exact h₂
  | cons a l ih =>
    rw [List.cons_append, List.chain'_cons']
    refine ⟨?_, ih (fun e he => h₁ e (List.mem_cons_of_mem a he))⟩
    intro b hb
    have ha := h₁ a (List.mem_cons_self a l)
    rcases l with _ | ⟨x, xs⟩
    · simp only [List.nil_append] at hb
      have : b ∈ l₂ := List.mem_of_mem_head? hb
      have := h₃ b this
      omega
    · simp only [List.cons_append, List.head?_cons, Option.mem_def, Option.some.injEq] at hb
      have hx := h₁ x (List.mem_cons_of_mem a (List.mem_cons_self x xs))
      rw [← hb]
      omega

theorem c4_counterexample :
    (updateContainer qTerm byNameNone routesEmpty none 0 baseContainer rng0).events.map
        IoTEvent.eventTime = [0, 0, 0] ∧
    (updateContainer qTerm byNameNone routesEmpty none 0 baseContainer rng0).events.map
        IoTEvent.eventType = [EventType.gateIn, EventType.locationUpdate, EventType.inMotion] ∧
    ¬ List.Chain' (fun a b => a.eventTime < b.eventTime)
        (updateContainer qTerm byNameNone routesEmpty none 0 baseContainer rng0).events := by
  refine ⟨by decide, by decide, ?_⟩
  intro hchain
  have h1 : (updateContainer qTerm byNameNone routesEmpty none 0 baseContainer rng0).events.map
      IoTEvent.eventTime = [(0 : ℤ), 0, 0] := by decide
  have h2 := (List.chain'_map IoTEvent.eventTime).mpr hchain
  rw [h1] at h2
  simp [List.chain'_cons] at h2

/-- C4 (amended). Within one eligible update the emitted events carry
non-decreasing event_times: every non-door event (gate events, the
LocationUpdate, motion events) is stamped with the tick's sim_time, and
door events are offset into the future; the order is non-decreasing, not
strict. Across updates, the tick timestamps of successive eligible
updates of one container grow by at least EVENT_INTERVAL_SECONDS, so the
non-door events of later updates are strictly later; the future-dated
door events are not ordered relative to later updates' events. -/
theorem c4_event_order (q : ℚ × ℚ → Option Geofence) (byName : String → Option Geofence)
    (ro : RouteOracle) (jo : Option Journey) (t : ℤ) (c : Container) (r : Rng) :
    List.Chain' (fun a b => a.eventTime ≤ b.eventTime)
      (updateContainer q byName ro jo t c r).events ∧
    (∀ e ∈ (updateContainer q byName ro jo t c r).events,
      isDoorType e.eventType = false → e.eventTime = t) ∧
    (∀ e ∈ (updateContainer q byName ro jo t c r).events, t ≤ e.eventTime) ∧
    (∀ lt, c.lastEventTime = some lt →
      (updateContainer q byName ro jo t c r).events ≠ [] →
      lt + EVENT_INTERVAL_SECONDS ≤ t) := by
  unfold updateContainer
  dsimp only
  by_cases hskip1 : (match c.journeyStartTime with
      | some ts => decide (t < ts)
      | none => false) = true
  · rw [if_pos hskip1]
    exact ⟨List.chain'_nil, fun e he => absurd he (List.not_mem_nil e),
      fun e he => absurd he (List.not_mem_nil e), fun lt _ hne => absurd rfl hne⟩
  · rw [if_neg hskip1]
    by_cases hskip2 : (match c.lastEventTime with
        | some lt => t - lt
        | none => EVENT_INTERVAL_SECONDS + 1) < EVENT_INTERVAL_SECONDS
    · rw [if_pos hskip2]
      exact ⟨List.chain'_nil, fun e he => absurd he (List.not_mem_nil e),
        fun e he => absurd he (List.not_mem_nil e), fun lt _ hne => absurd rfl hne⟩
    · rw [if_neg hskip2]
      dsimp only
      have hg := gatePhase_events byName (q (c.longitude, c.latitude)) t c r
      have hm := movePhase_events ro jo (q (c.longitude, c.latitude)) t
        { (gatePhase byName (q (c.longitude, c.latitude)) t c r).1 with lastEventTime := some t }
        ((createLocationUpdate (gatePhase byName (q (c.longitude, c.latitude)) t c r).1 t
          (q (c.longitude, c.latitude)) (gatePhase byName (q (c.longitude, c.latitude)) t c r).2.2).2)
      refine ⟨?_, ?_, ?_, ?_⟩
      · rw [List.append_assoc]
        refine chain_time_append t _ _ ?_ ?_ ?_
        · intro e he
          exact (hg e he).1
        · exact chain_time_append t _ _
            (by intro e he
                simp only [List.mem_singleton] at he
                subst he
                exact createLocationUpdate_time ..)
            hm.1 hm.2.1
        · intro e he
          rcases List.mem_append.mp he with h | h
          · simp only [List.mem_singleton] at h
            subst h
            exact le_of_eq (createLocationUpdate_time ..).symm
          · exact hm.2.1 e h
      · intro e he
        rcases List.mem_append.mp he with h | h
        · rcases List.mem_append.mp h with h' | h'
          · exact fun _ => (hg e h').1
          · simp only [List.mem_singleton] at h'
            subst h'
            exact fun _ => createLocationUpdate_time ..
        · exact hm.2.2.1 e h
      · intro e he
        rcases List.mem_append.mp he with h | h
        · rcases List.mem_append.mp h with h' | h'
          · exact le_of_eq (hg e h').1.symm
          · simp only [List.mem_singleton] at h'
            subst h'
            exact le_of_eq (createLocationUpdate_time ..).symm
        · exact hm.2.1 e h
      · intro lt hlt _
        rw [hlt] at hskip2
        unfold EVENT_INTERVAL_SECONDS at hskip2 ⊢
        dsimp only at hskip2
        omega

theorem c4_witness :
    List.Chain' (fun a b => a.eventTime ≤ b.eventTime)
      (updateContainer qTerm byNameNone routesEmpty none 900 dueContainer rng0).events ∧
    (0 : ℤ) + EVENT_INTERVAL_SECONDS ≤ 900 := by
  have h := c4_event_order qTerm byNameNone routesEmpty none 900 dueContainer rng0
  exact ⟨h.1, h.2.2.2 0 rfl (by decide)⟩

/-! ## C5: GateIn / GateOut sequencing -/

theorem gateSeq_append (l₁ l₂ : List IoTEvent) :
    gateSeq (l₁ ++ l₂) = gateSeq l₁ ++ gateSeq l₂ := by
  unfold gateSeq
  exact List.filterMap_append ..

theorem gateSeq_nil_of_no_gates (l : List IoTEvent)
    (h : ∀ e ∈ l, e.eventType ≠ EventType.gateIn ∧ e.eventType ≠ EventType.gateOut) :
    gateSeq l = [] := by
  induction l with
  | nil => rfl
  | cons a l ih =>
    have ha := h a (List.mem_cons_self a l)
    unfold gateSeq
    rw [List.filterMap_cons]
    have hnone : (match a.eventType with
        | EventType.gateIn => some (true, a.eventLocation)
        | EventType.gateOut => some (false, a.eventLocation)
        | _ => none) = none := by
      cases hty : a.eventType <;> simp_all
    rw [hnone]
    exact ih (fun e he => h e (List.mem_cons_of_mem a he))

theorem createGateEvent_location (c : Container) (t : ℤ) (isEntry : Bool) (gf : Geofence)
    (r : Rng) (h : gf.name ≠ "") :
    (createGateEvent c t isEntry gf r).1.eventLocation = gf.name := by
  unfold createGateEvent mkIoTEvent mkEventLocation
  simp [h]

theorem gateSeq_single_gate (c : Container) (t : ℤ) (isEntry : Bool) (gf : Geofence)
    (r : Rng) (h : gf.name ≠ "") :
    gateSeq [(createGateEvent c t isEntry gf r).1] = [(isEntry, gf.name)] := by
  unfold gateSeq
  rw [List.filterMap_cons]
  cases isEntry <;>
    simp [createGateEvent_type, createGateEvent_location c t _ gf r h, List.filterMap_nil]

theorem gateSeq_locationUpdate (c : Container) (t : ℤ) (gf : Option Geofence) (r : Rng) :
    gateSeq [(createLocationUpdate c t gf r).1] = [] := by
  unfold gateSeq
  rw [List.filterMap_cons]
  simp [createLocationUpdate_type, List.filterMap_nil]

/-- The geofence-transition block emits: nothing (resolved name unchanged),
exactly one GateOut for the recorded geofence (on exit to none), or
exactly one GateIn for the newly resolved geofence — never a GateOut on a
direct geofence-to-geofence change. -/
theorem gatePhase_gateSeq (byName : String → Option Geofence) (gfOpt : Option Geofence)
    (t : ℤ) (c : Container) (r : Rng)
    (hB : ∀ n og, byName n = some og → og.name = n)
    (hQ : ∀ gf, gfOpt = some gf → gf.name ≠ "")
    (hc : ∀ g, c.currentGeofence = some g → g ≠ "" ∧ (byName g).isSome) :
    (gateSeq (gatePhase byName gfOpt t c r).2.1 = [] ∧
      gfOpt.map Geofence.name = c.currentGeofence) ∨
    (∃ g, c.currentGeofence = some g ∧
      gateSeq (gatePhase byName gfOpt t c r).2.1 = [(false, g)] ∧ gfOpt = none) ∨
    (∃ gf, gfOpt = some gf ∧
      gateSeq (gatePhase byName gfOpt t c r).2.1 = [(true, gf.name)] ∧
      c.currentGeofence ≠ some gf.name) := by
  rcases gfOpt with _ | gf
  · rcases hcg : c.currentGeofence with _ | g
    · left
      unfold gatePhase
      simp [hcg, gateSeq]
    · right; left
      obtain ⟨hg, hbs⟩ := hc g hcg
      obtain ⟨og, hog⟩ := Option.isSome_iff_exists.mp hbs
      have hogname : og.name = g := hB g og hog
      refine ⟨g, rfl, ?_, rfl⟩
      unfold gatePhase
      rw [hcg]
      rw [if_pos (show Option.map Geofence.name none ≠ some g by simp)]
      dsimp only
      rw [if_pos (show (strOptTruthy (some g) &&
          !strOptTruthy (Option.map Geofence.name none)) = true by
        simp [strOptTruthy, hg])]
      simp only [Option.getD_some]
      rw [hog]
      dsimp only
      rw [if_neg (show ¬ ((strOptTruthy (Option.map Geofence.name none) &&
          decide (Option.map Geofence.name none ≠ some g)) = true) by
        simp [strOptTruthy])]
      dsimp only
      rw [List.append_nil]
      rw [gateSeq_single_gate c t false og r (by rw [hogname]; exact hg)]
      rw [hogname]
  · have hname := hQ gf rfl
    by_cases heq : some gf.name = c.currentGeofence
    · left
      unfold gatePhase
      rw [if_neg (not_ne_iff.mpr (show Option.map Geofence.name (some gf) = c.currentGeofence
        by simpa using heq))]
      exact ⟨rfl, by simpa using heq⟩
    · right; right
      refine ⟨gf, rfl, ?_, fun hcc => heq hcc.symm⟩
      unfold gatePhase
      rw [if_pos (show Option.map Geofence.name (some gf) ≠ c.currentGeofence
        by simpa using heq)]
      dsimp only
      rw [if_neg (show ¬ ((strOptTruthy c.currentGeofence &&
          !strOptTruthy (Option.map Geofence.name (some gf))) = true) by
        simp [strOptTruthy, hname])]
      dsimp only
      rw [if_pos (show (strOptTruthy (Option.map Geofence.name (some gf)) &&
          decide (Option.map Geofence.name (some gf) ≠ c.currentGeofence)) = true by
        simp only [Option.map_some, strOptTruthy, Bool.and_eq_true, decide_eq_true_eq]
        exact ⟨by simpa using hname, by simpa using heq⟩)]
      dsimp only
      rw [List.nil_append]
      exact gateSeq_single_gate c t true gf _ hname

/-- One scheduler visit, seen through its gate events: either no gate
event (recorded geofence unchanged), or exactly one admissible gate
event, with the recorded geofence tracking it; resolvability of the
recorded name is preserved. -/
theorem update_gate_step (q : ℚ × ℚ → Option Geofence) (byName : String → Option Geofence)
    (ro : RouteOracle) (jo : Option Journey) (t : ℤ) (c : Container) (r : Rng)
    (hB : ∀ n og, byName n = some og → og.name = n)
    (hQ : ∀ p gf, q p = some gf → gf.name ≠ "" ∧ (byName gf.name).isSome)
    (hc : ∀ g, c.currentGeofence = some g → g ≠ "" ∧ (byName g).isSome) :
    ((gateSeq (updateContainer q byName ro jo t c r).events = [] ∧
      (updateContainer q byName ro jo t c r).container.currentGeofence = c.currentGeofence) ∨
     (∃ x : Bool × String, gateSeq (updateContainer q byName ro jo t c r).events = [x] ∧
        nextOk c.currentGeofence x ∧
        (updateContainer q byName ro jo t c r).container.currentGeofence
          = (if x.1 then some x.2 else none))) ∧
    (∀ g, (updateContainer q byName ro jo t c r).container.currentGeofence = some g →
      g ≠ "" ∧ (byName g).isSome) := by
  unfold updateContainer
  dsimp only
  by_cases hskip1 : (match c.journeyStartTime with
      | some ts => decide (t < ts)
      | none => false) = true
  · rw [if_pos hskip1]
    exact ⟨Or.inl ⟨rfl, rfl⟩, hc⟩
  · rw [if_neg hskip1]
    by_cases hskip2 : (match c.lastEventTime with
        | some lt => t - lt
        | none => EVENT_INTERVAL_SECONDS + 1) < EVENT_INTERVAL_SECONDS
    · rw [if_pos hskip2]
      exact ⟨Or.inl ⟨rfl, rfl⟩, hc⟩
    · rw [if_neg hskip2]
      dsimp only
      have hpost : (movePhase ro jo (q (c.longitude, c.latitude)) t
          { (gatePhase byName (q (c.longitude, c.latitude)) t c r).1 with lastEventTime := some t }
          ((createLocationUpdate (gatePhase byName (q (c.longitude, c.latitude)) t c r).1 t
            (q (c.longitude, c.latitude))
            (gatePhase byName (q (c.longitude, c.latitude)) t c r).2.2).2)).1.currentGeofence
          = (q (c.longitude, c.latitude)).map Geofence.name := by
        rw [movePhase_currentGeofence]
        show (gatePhase byName (q (c.longitude, c.latitude)) t c r).1.currentGeofence = _
        rw [gatePhase_container]
      have hseq : gateSeq ((gatePhase byName (q (c.longitude, c.latitude)) t c r).2.1 ++
          [(createLocationUpdate (gatePhase byName (q (c.longitude, c.latitude)) t c r).1 t
            (q (c.longitude, c.latitude))
            (gatePhase byName (q (c.longitude, c.latitude)) t c r).2.2).1] ++
          (movePhase ro jo (q (c.longitude, c.latitude)) t
            { (gatePhase byName (q (c.longitude, c.latitude)) t c r).1 with
                lastEventTime := some t }
            ((createLocationUpdate (gatePhase byName (q (c.longitude, c.latitude)) t c r).1 t
              (q (c.longitude, c.latitude))
              (gatePhase byName (q (c.longitude, c.latitude)) t c r).2.2).2)).2.1)
          = gateSeq (gatePhase byName (q (c.longitude, c.latitude)) t c r).2.1 := by
        rw [gateSeq_append, gateSeq_append, gateSeq_locationUpdate,
          gateSeq_nil_of_no_gates _ ((movePhase_events ro jo (q (c.longitude, c.latitude)) t
            { (gatePhase byName (q (c.longitude, c.latitude)) t c r).1 with
                lastEventTime := some t }
            ((createLocationUpdate (gatePhase byName (q (c.longitude, c.latitude)) t c r).1 t
              (q (c.longitude, c.latitude))
              (gatePhase byName (q (c.longitude, c.latitude)) t c r).2.2).2)).2.2.2)]
        simp
      constructor
      · rcases gatePhase_gateSeq byName (q (c.longitude, c.latitude)) t c r hB
          (fun gf hgf => (hQ _ gf hgf).1) hc with ⟨h0, hmap⟩ | ⟨g, hcg, hg0, hnone⟩ |
          ⟨gf, hopt, hg0, hne⟩
        · left
          refine ⟨?_, ?_⟩
          · rw [hseq, h0]
          · rw [hpost, hmap]
        · right
          refine ⟨(false, g), ?_, ?_, ?_⟩
          · rw [hseq, hg0]
          · rw [hcg]
            unfold nextOk
            exact Or.inl rfl
          · rw [hpost, hnone]
            rfl
        · right
          refine ⟨(true, gf.name), ?_, ?_, ?_⟩
          · rw [hseq, hg0]
          · rcases hcg : c.currentGeofence with _ | g
            · unfold nextOk
              rfl
            · unfold nextOk
              right
              refine ⟨rfl, ?_⟩
              intro hgg
              rw [hcg] at hne
              exact hne (by rw [show gf.name = g from hgg])
          · rw [hpost, hopt]
            rfl
      · intro g hg
        rw [hpost] at hg
        rcases hq : q (c.longitude, c.latitude) with _ | gf
        · rw [hq] at hg
          cases hg
        · rw [hq] at hg
          simp at hg
          subst hg
          exact hQ _ gf hq

/-- Gate-event chain over successive visits, together with the
admissibility of the first gate event relative to the starting geofence. -/
theorem runUpdates_gate_chain (q : ℚ × ℚ → Option Geofence) (byName : String → Option Geofence)
    (ro : RouteOracle) (jo : Option Journey)
    (hB : ∀ n og, byName n = some og → og.name = n)
    (hQ : ∀ p gf, q p = some gf → gf.name ≠ "" ∧ (byName gf.name).isSome) :
    ∀ (times : List ℤ) (c : Container) (r : Rng),
      (∀ g, c.currentGeofence = some g → g ≠ "" ∧ (byName g).isSome) →
      List.Chain' gateRel (gateSeq (runUpdates q byName ro jo times c r)) ∧
      ∀ x, (gateSeq (runUpdates q byName ro jo times c r)).head? = some x →
        nextOk c.currentGeofence x
  | [], c, r, hc => by
    constructor
    · exact List.chain'_nil
    · intro x hx
      simp [runUpdates, gateSeq] at hx
  | t :: ts, c, r, hc => by
    obtain ⟨hstep, hinv⟩ := update_gate_step q byName ro jo t c r hB hQ hc
    obtain ⟨ihchain, ihhead⟩ := runUpdates_gate_chain q byName ro jo hB hQ ts
      (updateContainer q byName ro jo t c r).container (updateContainer q byName ro jo t c r).rng
      hinv
    unfold runUpdates
    dsimp only
    rw [gateSeq_append]
    rcases hstep with ⟨h0, hcg⟩ | ⟨x, hx, hnext, hpost⟩
    · rw [h0, List.nil_append]
      refine ⟨ihchain, ?_⟩
      intro y hy
      rw [← hcg]
      exact ihhead y hy
    · rw [hx, List.singleton_append]
      constructor
      · rw [List.chain'_cons']
        refine ⟨?_, ihchain⟩
        intro y hy
        have hn := ihhead y (Option.mem_def.mp hy)
        rw [hpost] at hn
        rcases x with ⟨b, sname⟩
        cases b
        · simp only [if_neg (by simp : ¬ (false = true))] at hn
          exact hn
        · simp only [if_pos rfl] at hn
          exact hn
      · intro y hy
        simp only [List.head?_cons, Option.some.injEq] at hy
        rw [← hy]
        exact hnext

theorem c5_counterexample :
    (updateContainer qTerm byNameFix routesEmpty none 0 cexGateContainer rng0).events.map
        IoTEvent.eventType = [EventType.gateIn, EventType.locationUpdate, EventType.inMotion] ∧
    gateSeq (updateContainer qTerm byNameFix routesEmpty none 0 cexGateContainer rng0).events
        = [(true, "USNYC-APM")] ∧
    cexGateContainer.currentGeofence = some ("OLDFENCE") ∧
    (∀ e ∈ (updateContainer qTerm byNameFix routesEmpty none 0 cexGateContainer rng0).events,
      e.eventType ≠ EventType.gateOut) := by
  refine ⟨by decide, by decide, by decide, ?_⟩
  decide

/-- C5 (amended). For every GateIn for geofence g on container c, the
next gate event for c, if any, is a GateOut for g or directly a GateIn
for some g' ≠ g; when the resolved geofence changes directly from g to
g' ≠ g the scheduler emits only the GateIn for g' — no intervening
GateOut for g is emitted in that tick. (Stated as: the gate-event
subsequence over any run of scheduler visits satisfies the successor
relation gateRel, assuming the geofence store resolves every name the
point-in-polygon query or the initial state can produce, with non-empty
names.) -/
theorem c5_gate_event_chain (q : ℚ × ℚ → Option Geofence) (byName : String → Option Geofence)
    (ro : RouteOracle) (jo : Option Journey) (times : List ℤ) (c : Container) (r : Rng)
    (hB : ∀ n og, byName n = some og → og.name = n)
    (hQ : ∀ p gf, q p = some gf → gf.name ≠ "" ∧ (byName gf.name).isSome)
    (hc : ∀ g, c.currentGeofence = some g → g ≠ "" ∧ (byName g).isSome) :
    List.Chain' gateRel (gateSeq (runUpdates q byName ro jo times c r)) :=
  (runUpdates_gate_chain q byName ro jo hB hQ times c r hc).1

theorem c5_witness :
    List.Chain' gateRel
      (gateSeq (runUpdates qTerm byNameFix routesEmpty none [0, 900] baseContainer rng0)) := by
  have hB : ∀ n og, byNameFix n = some og → og.name = n := by
    intro n og h
    unfold byNameFix at h
    split_ifs at h with h1 h2
    · injection h with h'
      rw [← h', h1]
    · injection h with h'
      rw [← h', h2]
  have hQ : ∀ p gf, qTerm p = some gf → gf.name ≠ "" ∧ (byNameFix gf.name).isSome := by
    intro p gf h
    unfold qTerm at h
    injection h with h'
    rw [← h']
    exact ⟨by decide, by decide⟩
  have hc : ∀ g, baseContainer.currentGeofence = some g → g ≠ "" ∧ (byNameFix g).isSome := by
    intro g h
    simp [baseContainer] at h
  exact c5_gate_event_chain qTerm byNameFix routesEmpty none [0, 900] baseContainer rng0 hB hQ hc

/-! ## C7: Asia-Europe ocean routes thread the canonical chokepoints -/

theorem getTerminalRegion_cn (g : Geofence) (cent : ℚ × ℚ)
    (h : countryCode g.name = "CN") : getTerminalRegion g cent = "CHINA" := by
  unfold getTerminalRegion
  rw [h]
  dsimp only
  rw [show countryToRegions ("CN") = ["CHINA", "ASIA"] from by decide]
  rw [if_neg (by decide), if_neg (by decide), if_neg (by decide)]
  rfl

theorem getTerminalRegion_nl (g : Geofence) (cent : ℚ × ℚ)
    (h : countryCode g.name = "NL") : getTerminalRegion g cent = "EU" := by
  unfold getTerminalRegion
  rw [h]
  dsimp only
  rw [show countryToRegions ("NL") = ["EU"] from by decide]
  rw [if_neg (by decide), if_pos (by decide)]
  rfl

theorem sublist_adjustMid {p l : List (ℚ × ℚ)} (h : p.Sublist l) :
    (∀ x ∈ p, adjustWaypoint x = x) → p.Sublist (adjustMid l) := by
  induction h with
  | slnil =>
    intro _
    exact List.Sublist.slnil
  | @cons l₁ l₂ a h ih =>
    intro hfix
    cases l₂ with
    | nil =>
      rw [List.sublist_nil.mp h]
      simp [adjustMid]
    | cons b bs =>
      exact (ih hfix).cons _
  | @cons₂ l₁ l₂ a h ih =>
    intro hfix
    have ha : adjustWaypoint a = a := hfix a (List.mem_cons_self a l₁)
    cases l₂ with
    | nil =>
      rw [List.sublist_nil.mp h]
      simp [adjustMid]
    | cons b bs =>
      show (a :: l₁).Sublist (adjustWaypoint a :: adjustMid (b :: bs))
      rw [ha]
      exact (ih (fun x hx => hfix x (List.mem_cons_of_mem a hx))).cons₂ _

/-- The water-validation pass can only replace interior waypoints that are
clearly on land; a subsequence of fixed points survives it. -/
theorem sublist_validateOceanRoute {p l : List (ℚ × ℚ)} (h : p.Sublist l)
    (hfix : ∀ x ∈ p, adjustWaypoint x = x) : p.Sublist (validateOceanRoute l) := by
  cases l with
  | nil =>
    rw [List.sublist_nil.mp h]
    exact List.Sublist.slnil
  | cons a rest =>
    show p.Sublist (a :: adjustMid rest)
    cases h with
    | cons a h' => exact (sublist_adjustMid h' hfix).cons _
    | cons₂ a h' =>
      exact (sublist_adjustMid h'
        (fun x hx => hfix x (List.mem_cons_of_mem a hx))).cons₂ _

/-- Every chokepoint's waypoint block appears, in key order, inside the
waypoint list the chokepoint-route loop accumulates. -/
theorem buildLoop_wps_sublist (gc : GCOracle) (w : ℕ) :
    ∀ (keys : List String) (cur : ℚ × ℚ),
      ((keys.map chokepointWps).flatten).Sublist (buildLoop gc w cur keys).1
  | [], cur => by simp [buildLoop]
  | k :: ks, cur => by
    unfold buildLoop
    dsimp only
    cases hk : chokepointFor k with
    | none =>
      have hwps : chokepointWps k = [] := by
        unfold chokepointWps
        rw [hk]
        rfl
      rw [List.map_cons, List.flatten_cons, hwps, List.nil_append]
      exact buildLoop_wps_sublist gc w ks cur
    | some cp =>
      dsimp only
      by_cases hemp : cp.waypoints.isEmpty
      · rw [if_pos hemp]
        have hwps : chokepointWps k = [] := by
          unfold chokepointWps
          rw [hk]
          simpa using hemp
        rw [List.map_cons, List.flatten_cons, hwps, List.nil_append]
        exact buildLoop_wps_sublist gc w ks cur
      · rw [if_neg hemp]
        dsimp only
        have hwps : chokepointWps k = cp.waypoints := by
          unfold chokepointWps
          rw [hk]
          rfl
        rw [List.map_cons, List.flatten_cons, hwps]
        have ih := buildLoop_wps_sublist gc w ks (cp.waypoints.getLastD (0, 0))
        have base := (List.Sublist.refl cp.waypoints).append ih
        have skip := base.trans (List.sublist_append_right
          ((gc cur (cp.waypoints.headD (0, 0)) w).dropLast) _)
        simpa using skip

/-- C7. For an ocean route whose origin terminal name begins with "CN"
and destination name begins with "NL", the waypoint sequence constructed
before the final perturbation pass (the chokepoint route between the two
centroids, water-validated) contains the Malacca waypoints (100, 5) and
(103.5, 1.2), the Bab el-Mandeb waypoint (43.3, 12.6), the Suez waypoint
(32.55, 30) and the Gibraltar waypoint (-5.6, 35.95), in that relative
order — for every great-circle sampling oracle. -/
theorem c7_asia_europe_chokepoints (gc : GCOracle) (origin dest : Geofence)
    (ho : countryCode origin.name = "CN") (hd : countryCode dest.name = "NL") :
    asiaEuropePattern.Sublist (oceanRoutePreVariation gc origin dest) := by
  unfold oceanRoutePreVariation
  dsimp only
  rw [getTerminalRegion_cn origin _ ho, getTerminalRegion_nl dest _ hd]
  rw [show getRouteChokepoints ("CHINA") ("EU")
      = ["taiwan", "malacca", "singapore", "bab_el_mandeb", "suez", "gibraltar"] from by decide]
  apply sublist_validateOceanRoute
  · unfold buildChokepointRoute
    rw [if_neg (by decide)]
    dsimp only
    have h1 := buildLoop_wps_sublist gc 20
      ["taiwan", "malacca", "singapore", "bab_el_mandeb", "suez", "gibraltar"]
      (getCentroid origin)
    have hfl : ((["taiwan", "malacca", "singapore", "bab_el_mandeb", "suez",
        "gibraltar"].map chokepointWps).flatten)
        = [(119.5, 24.0), (120.0, 25.0), (100.0, 5.0), (103.5, 1.2), (103.8, 1.25),
           (104.1, 1.2), (43.3, 12.6), (43.5, 12.4), (32.37, 31.23), (32.55, 30.00),
           (32.53, 29.93), (-5.6, 35.95), (-5.95, 35.9)] := rfl
    have h2 : asiaEuropePattern.Sublist
        (((["taiwan", "malacca", "singapore", "bab_el_mandeb", "suez",
          "gibraltar"].map chokepointWps)).flatten) := by
      rw [hfl]
      unfold asiaEuropePattern
      refine List.Sublist.cons _ (List.Sublist.cons _ ?_)
      refine List.Sublist.cons₂ _ (List.Sublist.cons₂ _ ?_)
      refine List.Sublist.cons _ (List.Sublist.cons _ ?_)
      refine List.Sublist.cons₂ _ ?_
      refine List.Sublist.cons _ (List.Sublist.cons _ ?_)
      refine List.Sublist.cons₂ _ ?_
      refine List.Sublist.cons _ ?_
      refine List.Sublist.cons₂ _ ?_
      exact List.Sublist.cons _ (List.nil_sublist [])
    exact (h2.trans h1).trans (List.sublist_append_left _ _)
  · intro x hx
    have hfalse : ∀ a b : ℚ, isPointClearlyOnLand a b = false →
        adjustWaypoint (a, b) = (a, b) := by
      intro a b hab
      unfold adjustWaypoint
      simp [hab]
    have hx' : x = ((100.0 : ℚ), (5.0 : ℚ)) ∨ x = ((103.5 : ℚ), (1.2 : ℚ)) ∨
        x = ((43.3 : ℚ), (12.6 : ℚ)) ∨ x = ((32.55 : ℚ), (30.00 : ℚ)) ∨
        x = ((-5.6 : ℚ), (35.95 : ℚ)) := by
      simpa [asiaEuropePattern] using hx
    rcases hx' with rfl | rfl | rfl | rfl | rfl <;>
      (apply hfalse
       unfold isPointClearlyOnLand normalizeLon landBoxes waterRegions
       norm_num)

theorem c7_witness :
    asiaEuropePattern.Sublist
      (oceanRoutePreVariation gcConst
        { name := "CNSHA-T1", unloCode := some ("CNSHA"), ring := [(121.5, 31.2)] }
        { name := "NLRTM-A1", unloCode := some ("NLRTM"), ring := [(4.4, 51.9)] }) := by
  exact c7_asia_europe_chokepoints gcConst _ _ (by decide) (by decide)

end GeoFenceSim
